import Mathlib

/-!
Verification of the XBRL mapping/validation/tagging pipeline.

Shallow embedding of the deterministic core of the repository:
* `match_financial_term` and `extract_and_categorize_financial_data`
  (src/xbrl_mapping/services/ai/tools.py, tables from
  src/xbrl_mapping/services/ai/dependencies.py);
* `apply_tags_to_element` and `tag_statement_section`
  (src/xbrl_tagging/services/tools.py);
* `map_pydantic_to_django_fields` (src/xbrl_mapping/services/processors/storage.py);
* `ACRAXBRLValidator` (src/xbrl_validation/validators.py).

Python strings are Lean `String`s.  The substring operator `needle in hay`
and string equality are implemented through an injective integer code of
strings (base `1114113 = 0x110000 + 1`, digit `codepoint + 1`; digits are
in `[1, 1114112]`, so codes are injective across lengths and the operator
agrees with Python for every Unicode string).  Machine floats of the
source are modelled as exact rationals `ℚ`; Python dictionaries are
modelled as insertion-ordered association lists with dictionary-style
(last-write-wins) updates.
-/

/-- Injective integer code of a string: base-1114113 digits `c.toNat + 1`. -/
def strCode (s : String) : Nat := s.toList.foldl (fun acc c => acc * 1114113 + (c.toNat + 1)) 0

/-- substring test on codes, sliding over `hay` by dropping its last character;
`fuel` bounds the number of slides (callers pass the haystack length, which
always suffices because each slide drops one character). -/
def hasSubCode : Nat → Nat → Nat → Nat → Bool
  | 0, hay, ncode, npow => hay % npow == ncode
  | fuel + 1, hay, ncode, npow =>
    if hay % npow == ncode then true
    else if hay < npow then false
    else hasSubCode fuel (hay / 1114113) ncode npow

/-- Python `needle in hay` for strings (contiguous substring). -/
def pyInStr (needle hay : String) : Bool :=
  hasSubCode hay.length (strCode hay) (strCode needle) (1114113 ^ needle.length)

/-- Python `a == b` for strings (via the injective code). -/
def pyStrEq (a b : String) : Bool := strCode a == strCode b

/-- ASCII lowercase of a character (`str.lower` restricted to ASCII, which covers
every string the reference tables and the source's key sets contain). -/
def asciiLowerCh (c : Char) : Char :=
  if 'A' ≤ c && c ≤ 'Z' then Char.ofNat (c.toNat + 32) else c

/-- ASCII uppercase of a character. -/
def asciiUpperCh (c : Char) : Char :=
  if 'a' ≤ c && c ≤ 'z' then Char.ofNat (c.toNat - 32) else c

/-- Python `s.lower()` (ASCII fragment). -/
def pyLower (s : String) : String := String.mk (s.toList.map asciiLowerCh)

/-- the characters Python's `str.strip()` removes. -/
def isPySpace (c : Char) : Bool :=
  c == ' ' || c == '\t' || c == '\n' || c == '\r' || c == '\x0b' || c == '\x0c'

/-- Python `s.strip()`. -/
def pyStrip (s : String) : String :=
  String.mk (((s.toList.dropWhile isPySpace).reverse.dropWhile isPySpace).reverse)

/-- one step of Python `s.title()` on char lists: uppercase a letter that follows
a non-alphabetic character, lowercase the rest (ASCII fragment). -/
def pyTitleCh : List Char → Bool → List Char
  | [], _ => []
  | c :: rest, prevAlpha =>
    let isAlpha := (('a' ≤ c && c ≤ 'z') || ('A' ≤ c && c ≤ 'Z'))
    let c' := if isAlpha then (if prevAlpha then asciiLowerCh c else asciiUpperCh c) else c
    c' :: pyTitleCh rest isAlpha

/-- Python `s.title()` (ASCII fragment). -/
def pyTitle (s : String) : String := String.mk (pyTitleCh s.toList false)

/-! ## Term matcher
`match_financial_term` from src/xbrl_mapping/services/ai/tools.py with the term
tables of src/xbrl_mapping/services/ai/dependencies.py (already lowercase, so
the lowercasing in `FinancialTermDeps.__post_init__` is the identity on them). -/

/-- `income_terms` of src/xbrl_mapping/services/ai/dependencies.py. -/
def incomeTerms : List (String × List String) :=
  [("Revenue", ["revenue", "turnover", "sales", "contract", "income from operations"]),
   ("OtherIncome", ["other income", "other operating income", "other revenue", "dividend income", "interest income", "rental income"]),
   ("EmployeeBenefitsExpense", ["employee", "staff", "personnel", "salaries", "wages", "cpf", "compensation", "bonuses"]),
   ("DepreciationExpense", ["depreciation", "property, plant and equipment", "ppe", "fixed assets", "depreciate"]),
   ("AmortisationExpense", ["amortisation", "amortization", "intangible assets", "goodwill", "amortize"]),
   ("RepairsAndMaintenanceExpense", ["repairs", "maintenance", "upkeep", "repair expenses", "maintenance costs"]),
   ("SalesAndMarketingExpense", ["sales", "marketing", "advertising", "promotion", "selling expenses", "distribution costs"]),
   ("OtherExpensesByNature", ["other expenses", "general expenses", "administrative", "utilities", "office expenses", "rental expenses"]),
   ("OtherGainsLosses", ["other gains", "other losses", "foreign exchange", "forex", "fair value", "disposal gains", "disposal losses"]),
   ("FinanceCosts", ["finance costs", "interest expense", "borrowing costs", "loan interest", "financing costs"]),
   ("ShareOfProfitLossOfAssociatesAndJointVenturesAccountedForUsingEquityMethod", ["associates", "joint ventures", "equity method", "share of profit", "share of loss"]),
   ("ProfitLossBeforeTaxation", ["profit before tax", "earnings before tax", "profit before income tax", "pbt", "ebt"]),
   ("TaxExpenseBenefitContinuingOperations", ["income tax", "tax expense", "taxation", "tax charge", "income tax expense"]),
   ("ProfitLossFromDiscontinuedOperations", ["discontinued operations", "disposal group", "discontinued business"]),
   ("ProfitLoss", ["profit for the year", "net profit", "profit for the period", "net income", "total comprehensive income"]),
   ("ProfitLossAttributableToOwnersOfCompany", ["attributable to owners", "attributable to shareholders", "equity holders", "owners of the company"]),
   ("ProfitLossAttributableToNoncontrollingInterests", ["non-controlling interests", "minority interest", "minority shareholders", "nci"])]

/-- `position_terms` of src/xbrl_mapping/services/ai/dependencies.py. -/
def positionTerms : List (String × List String) :=
  [("currentAssets.CashAndBankBalances", ["cash", "bank", "cash equivalents", "cash at bank", "cash on hand"]),
   ("currentAssets.TradeAndOtherReceivablesCurrent", ["trade receivables", "accounts receivable", "trade debtors", "contract assets", "current receivables"]),
   ("currentAssets.CurrentFinanceLeaseReceivables", ["lease receivables", "finance lease assets", "short-term lease receivables"]),
   ("currentAssets.CurrentDerivativeFinancialAssets", ["derivatives", "forward contracts", "swap assets", "option assets", "current derivative assets"]),
   ("currentAssets.CurrentFinancialAssetsMeasuredAtFairValueThroughProfitOrLoss", ["fvtpl", "fair value", "trading assets", "fair value instruments", "current financial assets at fair value"]),
   ("currentAssets.Inventories", ["inventory", "stock", "goods for sale", "raw materials", "finished goods", "work in progress"]),
   ("currentAssets.OtherCurrentNonfinancialAssets", ["prepayments", "advances", "deposits", "other current assets"]),
   ("currentAssets.CurrentAssets", ["total current assets", "current assets", "short-term assets"]),
   ("nonCurrentAssets.PropertyPlantAndEquipment", ["ppe", "fixed assets", "tangible assets", "property and equipment", "plant and equipment"]),
   ("nonCurrentAssets.InvestmentProperties", ["investment property", "investment real estate", "rental properties", "property investments"]),
   ("nonCurrentAssets.Goodwill", ["goodwill", "acquisition goodwill", "purchased goodwill"]),
   ("nonCurrentAssets.IntangibleAssetsOtherThanGoodwill", ["intangible assets", "patents", "trademarks", "software", "licenses", "intellectual property"]),
   ("nonCurrentAssets.InvestmentsInSubsidiariesAssociatesOrJointVentures", ["investments in subsidiaries", "investments in associates", "equity investments", "joint ventures"]),
   ("nonCurrentAssets.DeferredTaxAssets", ["deferred tax assets", "future tax assets", "tax credits"]),
   ("nonCurrentAssets.NoncurrentAssets", ["total non-current assets", "long-term assets", "fixed assets"]),
   ("currentLiabilities.TradeAndOtherPayablesCurrent", ["trade payables", "accounts payable", "trade creditors", "accruals", "current payables"]),
   ("currentLiabilities.CurrentLoansAndBorrowings", ["short-term borrowings", "bank overdrafts", "current portion of loans", "current loans"]),
   ("currentLiabilities.CurrentFinanceLeaseLiabilities", ["current lease obligations", "short-term lease liabilities", "lease liabilities current"]),
   ("currentLiabilities.CurrentIncomeTaxLiabilities", ["tax payable", "current tax", "income tax payable"]),
   ("currentLiabilities.CurrentProvisions", ["short-term provisions", "current provisions", "warranty provisions"]),
   ("currentLiabilities.CurrentLiabilities", ["total current liabilities", "short-term liabilities"]),
   ("nonCurrentLiabilities.NoncurrentLoansAndBorrowings", ["long-term borrowings", "term loans", "bonds payable", "non-current loans"]),
   ("nonCurrentLiabilities.NoncurrentFinanceLeaseLiabilities", ["long-term lease obligations", "long-term lease liabilities", "non-current lease liabilities"]),
   ("nonCurrentLiabilities.DeferredTaxLiabilities", ["deferred tax liabilities", "future tax liabilities", "deferred taxation"]),
   ("nonCurrentLiabilities.NoncurrentProvisions", ["long-term provisions", "decommissioning provisions", "restoration provisions"]),
   ("nonCurrentLiabilities.NoncurrentLiabilities", ["total non-current liabilities", "long-term liabilities"]),
   ("equity.ShareCapital", ["share capital", "issued capital", "paid-up capital", "ordinary shares", "common stock"]),
   ("equity.TreasuryShares", ["treasury shares", "own shares", "repurchased shares", "treasury stock"]),
   ("equity.AccumulatedProfitsLosses", ["retained earnings", "accumulated profits", "retained profits", "accumulated earnings"]),
   ("equity.ReservesOtherThanAccumulatedProfitsLosses", ["reserves", "revaluation reserve", "translation reserve", "hedging reserve", "capital reserve"]),
   ("equity.NoncontrollingInterests", ["minority interests", "nci", "minority shareholders' interest", "non-controlling interests"]),
   ("equity.Equity", ["total equity", "shareholders' equity", "shareholders' funds", "net assets"]),
   ("Assets", ["total assets", "assets"]),
   ("Liabilities", ["total liabilities", "liabilities"])]

/-- encoding of one keyword: (code, base^length, length). -/
def encKw (kw : String) : Nat × Nat × Nat := (strCode kw, 1114113 ^ kw.length, kw.length)

/-- encode every keyword list of a term table. -/
def encTable (t : List (String × List String)) : List (String × List (Nat × Nat × Nat)) :=
  t.map (fun fk => (fk.1, fk.2.map encKw))

/-- score one (encoded) keyword against the lowered term (code `tc`, length `tlen`):
`+1` per substring occurrence, `+5` for an exact match, else `+2` for a substring
occurrence of a keyword longer than 5 characters (tools.py lines 70-78). -/
def kwScore (tlen tc : Nat) (k : Nat × Nat × Nat) : Nat :=
  let sub := hasSubCode tlen tc k.1 k.2.1
  (if sub then 1 else 0) +
  (if tc == k.1 then 5 else if sub && decide (5 < k.2.2) then 2 else 0)

/-- total score of one candidate field (sum over its keyword list). -/
def fieldScore (tlen tc : Nat) (kws : List (Nat × Nat × Nat)) : Nat :=
  kws.foldl (fun acc k => acc + kwScore tlen tc k) 0

/-- first maximum of an association list by value: Python's
`max(matches.items(), key=lambda x: x[1])` keeps the first-encountered maximum. -/
def firstMax (xs : List (String × Nat)) : Option (String × Nat) :=
  match xs with
  | [] => none
  | x :: rest => some (rest.foldl (fun b y => if b.2 < y.2 then y else b) x)

/-- Python `best_match[0].split('.', 1)`: the qualified field name split at the
first dot into (statement prefix, field name). -/
def splitOnceDot (s : String) : String × String :=
  let cs := s.toList
  let pre := cs.takeWhile (· != '.')
  let post := cs.dropWhile (· != '.')
  match post with
  | [] => (String.mk pre, "")
  | _ :: rest => (String.mk pre, String.mk rest)

/-- result dictionary of `match_financial_term`. -/
structure MatchResult where
  statement_type : String
  field : String
  match_score : Nat
  matched_term : String
  deriving DecidableEq, Repr

/-- the filtered candidate map of tools.py lines 47-65: income terms under the
`income.` prefix, position terms under `position.`, selected by the lowered
statement-type filter, with both tables as the fallback. -/
def filteredMappings (stLower : String) : List (String × List String) :=
  let fromIncome := incomeTerms.map (fun fk => ("income." ++ fk.1, fk.2))
  let fromPosition := positionTerms.map (fun fk => ("position." ++ fk.1, fk.2))
  let m1 := if ["all", "income", "profit", "loss"].contains stLower then fromIncome else []
  let m2 := if ["all", "position", "balance", "financial_position"].contains stLower then fromPosition else []
  let m := m1 ++ m2
  if m.isEmpty then fromIncome ++ fromPosition else m

/-- scoring/selection core of `match_financial_term` (tools.py lines 67-117),
parameterised by the encoded candidate table. -/
def matchWithTable (encTab : List (String × List (Nat × Nat × Nat))) (term : String) : MatchResult :=
  let termLower := pyStrip (pyLower term)
  let tc := strCode termLower
  let tlen := termLower.length
  let scored := encTab.filterMap (fun fk =>
    let s := fieldScore tlen tc fk.2
    if 0 < s then some (fk.1, s) else none)
  match firstMax scored with
  | some best =>
    let (st, fieldName) := splitOnceDot best.1
    { statement_type := if st == "income" then "income_statement" else "financial_position",
      field := fieldName, match_score := best.2, matched_term := term }
  | none =>
    if ["revenue", "income", "sale", "expense", "cost", "profit", "loss", "tax"].any
        (fun w => pyInStr w termLower) then
      { statement_type := "income_statement", field := term, match_score := 0, matched_term := term }
    else if ["asset", "liability", "equity", "cash", "receivable", "payable", "property", "equipment"].any
        (fun w => pyInStr w termLower) then
      { statement_type := "financial_position", field := term, match_score := 0, matched_term := term }
    else
      { statement_type := "unknown", field := "unknown", match_score := 0, matched_term := term }

/-- `match_financial_term(context, term, statement_type)` of tools.py with the
process-wide `financial_deps` tables.  (`statement_type or "all"` only matters
for `None`, which the `String` type excludes.) -/
def matchFinancialTerm (term : String) (statementType : String) : MatchResult :=
  matchWithTable (encTable (filteredMappings (pyLower statementType))) term

/-- the encoded candidate table for the default `"all"` filter, as a literal
(each triple is `encKw` of the corresponding keyword); `encAllLit_eq` below
checks it against `encTable (filteredMappings (pyLower "all"))`. -/
def encAllLit : List (String × List (Nat × Nat × Nat)) :=
  [  ("income.Revenue", [(219924512007638386909406060879652455169, 2130613589415972503718359380615289781026817, 7), (249282015623359720579803697799789505657832333, 2373744297944997374035172524615442343809130168321, 8), (178720876550125449131721245, 1716509490926956315606345121793, 5), (213061573128968091197247571017923956232160102, 2373744297944997374035172524615442343809130168321, 8), (1025227747097979358544778709710524332059382728019699103178982708218776134026168549889879387945589879386357735214294314982474713289, 10775646107690240905055753454789365763025797631558876379605576823207945392659284159768287559095394061088109694176121255699858301779969, 22)]),
  ("income.OtherIncome", [(367654672563365693815629010729705244114366884253623203914435379201225, 3657218447730466083037464194613009901040032537080427128054048654464122881, 12), (1083259503910699052805334377657014247095048297218240466137719454004839949141249340270286119054831557600525782056199196207815198908, 10775646107690240905055753454789365763025797631558876379605576823207945392659284159768287559095394061088109694176121255699858301779969, 22), (409608850213589043234011884031104098653201086914086700185953135132930475337, 4074554616456332759171118346252884299877413769984285908917680308570987335319553, 13), (458491372911029993905670885044768555975108948896004313070924664218362786189262539392497, 5057531859000288538492014142521780579076624941230501628510125114050427925380650671424864257, 15), (481188964620815833033900810380008828774447010108704786025301310447162931222809965364760, 5057531859000288538492014142521780579076624941230501628510125114050427925380650671424864257, 15), (420580456317379213649652539744966067180866968246556518805446917763936421166, 4074554616456332759171118346252884299877413769984285908917680308570987335319553, 13)]),
  ("income.EmployeeBenefitsExpense", [(217322796483032392281132407898208838074041192, 2373744297944997374035172524615442343809130168321, 8), (178720902825027197476667929, 1716509490926956315606345121793, 5), (268233322990590748231208635029228744764019922502623, 2644619381016394859378448166916884315988221439218614273, 9), (247151363786222679697029099283953832690975580, 2373744297944997374035172524615442343809130168321, 8), (184883660723455183917154844, 1716509490926956315606345121793, 5), (124124903571772, 1382890284319440897, 3), (328263122706313046214136352333517865316612549701540645309147887502620, 3657218447730466083037464194613009901040032537080427128054048654464122881, 12), (189326360557279305326362684093568516870, 2130613589415972503718359380615289781026817, 7)]),
  ("income.DepreciationExpense", [(331545721169359464696582569623333619342816820106318834362453100528899, 3657218447730466083037464194613009901040032537080427128054048654464122881, 12), (2328614572687223401382920071982301206298092648933723479859122758421306657392936791240183698017529958851875220339200239015549402981219993162603000499483960687247377326279512, 22958738031782157165594350635006866569163439166785975508788443351672639183567758574847692703942108721877119548585457324603139827420050807954658196464650287206552136275622428673, 29), (140261124669768, 1382890284319440897, 3), (338110988809173569475532804997743824306853632513710405908470073263311, 3657218447730466083037464194613009901040032537080427128054048654464122881, 12), (267106799604815030742483933346732114990053221798455739424, 2946404832442318725966701022588270735938585352312168003534849, 10)]),
  ("income.AmortisationExpense", [(321697860959335052487522575392161078947512996611974132522897470129446, 3657218447730466083037464194613009901040032537080427128054048654464122881, 12), (321697860959335052487522575392161078959528563048462826732141885981997, 3657218447730466083037464194613009901040032537080427128054048654464122881, 12), (597274732541364649836025855997160840026715218410654613898205347546702465099484496482682053822449377, 6277650175922495731332724834266066050938102107198415429558826743621126226931805673956739876428863045633, 17), (221584027486633697696960805717818309193565033, 2373744297944997374035172524615442343809130168321, 8), (208800342125366785766012226593867545797460851, 2373744297944997374035172524615442343809130168321, 8)]),
  ("income.RepairsAndMaintenanceExpense", [(219924512007629142727614489624595989245, 2130613589415972503718359380615289781026817, 7), (324104790741606016595113833468733899564523982562872282963182734, 3282627927086809042742939176378886074428745142620566430922221223937, 11), (202548294028183094259196547826320, 1912385538465104081649131982676164609, 6), (522044556356445784373850227316544771518705898998920059467069762423444099803289464931869, 5057531859000288538492014142521780579076624941230501628510125114050427925380650671424864257, 15), (619813314761506102086242456810830405825738671176165184564985145452582952892910799052005966377453280, 6277650175922495731332724834266066050938102107198415429558826743621126226931805673956739876428863045633, 17)]),
  ("income.SalesAndMarketingExpense", [(178720876550125449131721245, 1716509490926956315606345121793, 5), (261112081574301398431481011247577108742229773910987, 2644619381016394859378448166916884315988221439218614273, 9), (288747940686187193589395758169392526897720958346541610306962603, 3282627927086809042742939176378886074428745142620566430922221223937, 11), (268233350688561673471936731110102304808700665529328, 2644619381016394859378448166916884315988221439218614273, 9), (586674158674932872526358990042826082618561747785021053461966898154161583355292285361271670409, 5634661992026388464484953352367368526296795843149137860844301021190064407229612861493169791959041, 16), (634043265042929897888550114996831322025306097745221998378668683924189456570479039793009998509732187080574, 6994011670447539486722296063278669646208801752957148209472073139815963804065674814828965333947789894359318529, 18)]),
  ("income.OtherExpensesByNature", [(456350544938012329724574682153545480635115882218021165035966122889967353796625851, 4539514267404014259318412174098839685989325087518502726842003561622948413114873151489, 14), (525983776366937559148087233407582835856755236344660714033678400771534797270422206009633212025, 5634661992026388464484953352367368526296795843149137860844301021190064407229612861493169791959041, 16), (399306721792144920560142739503256735526421501215242589824971440053521343777736178, 4539514267404014259318412174098839685989325087518502726842003561622948413114873151489, 14), (280102076439502364859110291810305166646911928697829, 2644619381016394859378448166916884315988221439218614273, 9), (508426017628751785894011451042767321707754037992420954185094482398319593344047446164998, 5057531859000288538492014142521780579076624941230501628510125114050427925380650671424864257, 15), (522044556356438469999324673427773541147596611227552363420974370464400006067523399976480, 5057531859000288538492014142521780579076624941230501628510125114050427925380650671424864257, 15)]),
  ("income.OtherGainsLosses", [(329997650654256519595076092577418308655346311588437640779596895, 3282627927086809042742939176378886074428745142620566430922221223937, 11), (367654672563365693815629010729705244119516414267122242444753763894503, 3657218447730466083037464194613009901040032537080427128054048654464122881, 12), (520926289903096242868203608236585815392462990821816599760193215006080012874472727193640830557, 5634661992026388464484953352367368526296795843149137860844301021190064407229612861493169791959041, 16), (158691847347255068761522729, 1716509490926956315606345121793, 5), (272396028871855714386125303293224155898370442673128342505, 2946404832442318725966701022588270735938585352312168003534849, 10), (411530403927625853278173867055332168628951677643398552661641430048985529667093919, 4539514267404014259318412174098839685989325087518502726842003561622948413114873151489, 14), (458491372911019022273306121546617288387707240434319691710101887580558632576869735794215, 5057531859000288538492014142521780579076624941230501628510125114050427925380650671424864257, 15)]),
  ("income.FinanceCosts", [(376693848075125328950191403000711849450355955898742912839709864245237908781, 4074554616456332759171118346252884299877413769984285908917680308570987335319553, 13), (536098880940590990188898333554902776252385481773239415265356993897474556771139547281573414550, 5634661992026388464484953352367368526296795843149137860844301021190064407229612861493169791959041, 16), (449412368823535035280783377613230845650839679090982489138124081583404275672290902017588, 5057531859000288538492014142521780579076624941230501628510125114050427925380650671424864257, 15), (398637178457237384740828561283758077177491711468600271976888457080755258693, 4074554616456332759171118346252884299877413769984285908917680308570987335319553, 13), (467570401445808764650464871711650498464143708274640065192730579565847255637578389587464, 5057531859000288538492014142521780579076624941230501628510125114050427925380650671424864257, 15)]),
  ("income.ShareOfProfitLossOfAssociatesAndJointVenturesAccountedForUsingEquityMethod", [(259172974694192409229342913207502911802760094737918592057, 2946404832442318725966701022588270735938585352312168003534849, 10), (435977753569641709930833410825222459612566109698945118021963756345114028059264462, 4539514267404014259318412174098839685989325087518502726842003561622948413114873151489, 14), (373036655888438904416610346271337837399587147645368924041434119510578103631, 4074554616456332759171118346252884299877413769984285908917680308570987335319553, 13), (526584082847458789781255622987392653356066447991432303858598049520328497496231196165579, 5057531859000288538492014142521780579076624941230501628510125114050427925380650671424864257, 15), (424237684612955157725006152757741514684787014835973482092964812857032770806, 4074554616456332759171118346252884299877413769984285908917680308570987335319553, 13)]),
  ("income.ProfitLossBeforeTaxation", [(636717386715654107537610418156724496828534363713961620660790840427966161918829871647546534424413861, 6277650175922495731332724834266066050938102107198415429558826743621126226931805673956739876428863045633, 17), (713389805596014254740725421272870480164195827972941093550805253163992953831676289996386064047133950419832014698, 7792119324197319560170637433947588475546626747392347263099559822019782881639021164973543055100574042574343444299777, 19), (1356598716753797646056421581455383739385005175436341951125316565235689911262397411774051405524558493059632086691111829889774841204178287921479, 13375246774420039877118476387749491208539336612565361097913129924920695981214693196019405126917439583113582330916907015765213686232714396667740161, 24), (140261109072201, 1382890284319440897, 3), (126607383527742, 1382890284319440897, 3)]),
  ("income.TaxExpenseBenefitContinuingOperations", [(280329917873567988561952989972004615898866254211179021298, 2946404832442318725966701022588270735938585352312168003534849, 10), (344729624568737853675162026927266003720779065027467881242952816, 3282627927086809042742939176378886074428745142620566430922221223937, 11), (249281977375659250314638584906136967263486832, 2373744297944997374035172524615442343809130168321, 8), (309420700206117201464449318069592099379152426868467958753, 2946404832442318725966701022588270735938585352312168003534849, 10), (665431544095771416144714465266504759221858666551325508725959830014126999382014540618189515438991438710546, 6994011670447539486722296063278669646208801752957148209472073139815963804065674814828965333947789894359318529, 18)]),
  ("income.ProfitLossFromDiscontinuedOperations", [(1088341282104504835897172840953877632271551079994360000273628261437465766339624618693482262305631593244630789638812795591915492858202500, 12005287411977097365454380648775744658341960476688954439911508011234673665251813053091926157326446763581057155707640980551536232170986602497, 23), (411530403927625853278173867055332168628951677643398552661641453558127810592048570, 4539514267404014259318412174098839685989325087518502726842003561622948413114873151489, 14), (876812271066043947898590269071194465008896448087185641567330794615005525923846920051201683945206621178418922993605052205226, 9671950787478685649530840637161011282541176372198220808486730540984572832970519291820746691848487596041074553636948187212480513, 21)]),
  ("income.ProfitLoss", [(790324040690973275750661776587886712695658483491214059917894606575949877390544565866604091004720463604419004224, 7792119324197319560170637433947588475546626747392347263099559822019782881639021164973543055100574042574343444299777, 19), (293552993414987501633810483633404807537695904131101295621, 2946404832442318725966701022588270735938585352312168003534849, 10), (980987958434763269092302109770182156869521939551963541217761035091653712855391581524136611768080841514984971560178039261204, 9671950787478685649530840637161011282541176372198220808486730540984572832970519291820746691848487596041074553636948187212480513, 21), (293552993414987501633810471617832208248233686705062282220, 2946404832442318725966701022588270735938585352312168003534849, 10), (1743481246251007119578765289260495139239611727482817894589059466442135458990183896338935580726026142362191263529473238490600726806695830228617268449774193, 16601995322485612956833632770306677949910362518228877972484353444802057775318890917635517734368192160753612263057851686592469921324567888019971656824624119809, 26)]),
  ("income.ProfitLossAttributableToOwnersOfCompany", [(947852192886090959234715071788820454535426416847969640837277983009390914417761925239761033622880749305769534035136795703487563994, 10775646107690240905055753454789365763025797631558876379605576823207945392659284159768287559095394061088109694176121255699858301779969, 22), (1812658826277796755504417897368941276086252424568843834188679414906320755179048773012035742486406289714665120365434706076073238706890988604303741822437583780687579974, 20607189783964604277657967041948946443640312218586423018839600068998960772890863471521912682054790422405195477106413195612240255180624234664399568503958114847014742917121, 28), (415604987801836333116303002715399012038766226262714380827637578629539421052470720, 4539514267404014259318412174098839685989325087518502726842003561622948413114873151489, 14), (972306695958713447773811474236465329646448851562767785304436882154812148111660943224800491850241392785787345908079060650016, 9671950787478685649530840637161011282541176372198220808486730540984572832970519291820746691848487596041074553636948187212480513, 21)]),
  ("income.ProfitLossAttributableToNoncontrollingInterests", [(1484653736554010664957920031026323297628643230938503762376520422373191952048720027530813712080084858295318099849050361685439876987298280512686131773, 14901536309589433887616097083784748898819385931435032148879290920043171361719045480696767504165369366261422551444828026055229515609788134614685993992193, 25), (619813355221783671663962332120272705888479589960424032571819713452655757015277466325556678311282458, 6277650175922495731332724834266066050938102107198415429558826743621126226931805673956739876428863045633, 17), (954943983995764012499833354839820337477753320643661359134054886544190197743007916717356953384734321346406541177485775603892, 9671950787478685649530840637161011282541176372198220808486730540984572832970519291820746691848487596041074553636948187212480513, 21), (137778614632765, 1382890284319440897, 3)]),
  ("position.currentAssets.CashAndBankBalances", [(138289150074355450275, 1540696043333985256079361, 4), (136906259790030438816, 1540696043333985256079361, 4), (505753630772899708162115807395356035500145212655024000025231162803648868440049978016831637120, 5634661992026388464484953352367368526296795843149137860844301021190064407229612861493169791959041, 16), (328263081456661259718970185772937310065155974096118649917705394062428, 3657218447730466083037464194613009901040032537080427128054048654464122881, 12), (328263081456661259718970185772964083452395428607708297213530706281571, 3657218447730466083037464194613009901040032537080427128054048654464122881, 12)]),
  ("position.currentAssets.TradeAndOtherReceivablesCurrent", [(659256034683696108187657451504501316218807506723124898698060074273312190256387483019044155567048390, 6277650175922495731332724834266066050938102107198415429558826743621126226931805673956739876428863045633, 17), (685413771469439928714004890191409693245414178093386192059054384093826527796574515754660553238560447473134012325, 7792119324197319560170637433947588475546626747392347263099559822019782881639021164973543055100574042574343444299777, 19), (427894935886964894639109373047516760322353274684145005127674468470321251632, 4074554616456332759171118346252884299877413769984285908917680308570987335319553, 13), (453951883090924420672876132616327469251867794700727118778781396416621383477523798754848, 5057531859000288538492014142521780579076624941230501628510125114050427925380650671424864257, 15), (699401907808122694237425565078753910778553829888127083099648064265622771899004429780717818763070558007562012603, 7792119324197319560170637433947588475546626747392347263099559822019782881639021164973543055100574042574343444299777, 19)]),
  ("position.currentAssets.CurrentFinanceLeaseReceivables", [(614178672999570833529145143536223506612852387175600824312945702021929480976752754807204878737934016, 6277650175922495731332724834266066050938102107198415429558826743621126226931805673956739876428863045633, 17), (802589031758257801858486081891238623370786880584668010888424869744917211924930700696408764191695212994463588216145861, 8681301436639448287140389383447649639256678965417530186333639891989926365611494787172168973747265848294629497759157452801, 20), (2145595605718745824742696804172744684449942165016238469618816121722607632366265687141755109989694322708121625137841335740609440911068161906680916466454983196883225344, 20607189783964604277657967041948946443640312218586423018839600068998960772890863471521912682054790422405195477106413195612240255180624234664399568503958114847014742917121, 28)]),
  ("position.currentAssets.CurrentDerivativeFinancialAssets", [(297587157828124035815021402633282795544232363219104017120494769, 3282627927086809042742939176378886074428745142620566430922221223937, 11), (580370751622808264503964880421789849243428492601347155465844149147231378315614998406508714891151095, 6277650175922495731332724834266066050938102107198415429558826743621126226931805673956739876428863045633, 17), (341783277917867321361478452489570762679847180396431962955580537, 3282627927086809042742939176378886074428745142620566430922221223937, 11), (409608837083112691755343491287057866855608343845196267705405370241138885977, 4074554616456332759171118346252884299877413769984285908917680308570987335319553, 13), (1337526094067157801423996366149607401022161559340419702489164052419544051568221844506148186569399433091919414590312317764804801139014551973462936098, 14901536309589433887616097083784748898819385931435032148879290920043171361719045480696767504165369366261422551444828026055229515609788134614685993992193, 25)]),
  ("position.currentAssets.CurrentFinancialAssetsMeasuredAtFairValueThroughProfitOrLoss", [(158691857027489541505417777, 1716509490926956315606345121793, 5), (272396028871855714386125303293224155898370442673128342505, 2946404832442318725966701022588270735938585352312168003534849, 10), (476723310705834119661062071512750716520228830040788302130207880430212363791369642, 4539514267404014259318412174098839685989325087518502726842003561622948413114873151489, 14), (996211781878671378020285190523715199227517196343167767797988583565264989520418276119327844836635662491386692096234771348464863457, 10775646107690240905055753454789365763025797631558876379605576823207945392659284159768287559095394061088109694176121255699858301779969, 22), (5449823121212145006761590670961147178760251827052414618940369471342864602372201247727399888933899094005575026413394104394533875838970919028742068040506788017550450793368086368617462784892186818012890249165494827707137369378453, 60717123562529292091656544381747489333814395058718431355505805907709839764006905926377154654514206565700904490464705017818087245773505873422211499727606515108909353212037769185457588392667227766256320506201257187399045313842249729, 38)]),
  ("position.currentAssets.Inventories", [(251617132080505720874837686824816536013367836345335, 2644619381016394859378448166916884315988221439218614273, 9), (178720902825044574942200361, 1716509490926956315606345121793, 5), (423754089720292407391418525671677696037840473794314648989888573127524664418436438, 4539514267404014259318412174098839685989325087518502726842003561622948413114873151489, 14), (420580443186894022723760350121274032537861610036747448423635244603578778937, 4074554616456332759171118346252884299877413769984285908917680308570987335319553, 13), (419679513160522105636255846453979404337882185196134948666000888144768299311957396, 4539514267404014259318412174098839685989325087518502726842003561622948413114873151489, 14), (606904331506101148044510919714006097207595164393328681332476563475358944157856800793139545695, 5634661992026388464484953352367368526296795843149137860844301021190064407229612861493169791959041, 16)]),
  ("position.currentAssets.OtherCurrentNonfinancialAssets", [(332944050197452955078795956824162453028011664692460204827542723, 3282627927086809042742939176378886074428745142620566430922221223937, 11), (208800324913908955120320139411862043347780429, 2373744297944997374035172524615442343809130168321, 8), (215192167594532112061203488986080919981982579, 2373744297944997374035172524615442343809130168321, 8), (872718182610124386944439305965564461762096133264539588126093515009880504414103051429847574981394162194993042447337484, 8681301436639448287140389383447649639256678965417530186333639891989926365611494787172168973747265848294629497759157452801, 20)]),
  ("position.currentAssets.CurrentAssets", [(911678744261127964287167451159301372584821184388549487645265989912422226837015615295553455848671839817555726511769614, 8681301436639448287140389383447649639256678965417530186333639891989926365611494787172168973747265848294629497759157452801, 20), (407455893197787610662561441568285835352993293599269106771254851903460582572492228, 4539514267404014259318412174098839685989325087518502726842003561622948413114873151489, 14), (653621322116414682977074588920331028999474144461309400319597327205216900478168253327732710205228761, 6277650175922495731332724834266066050938102107198415429558826743621126226931805673956739876428863045633, 17)]),
  ("position.nonCurrentAssets.PropertyPlantAndEquipment", [(140261124669768, 1382890284319440897, 3), (338110988809173569475532804997743824306853632513710405908470073263311, 3657218447730466083037464194613009901040032537080427128054048654464122881, 12), (531123568593028032649956321610581531477524063028674676667978335645815912181527714858504, 5057531859000288538492014142521780579076624941230501628510125114050427925380650671424864257, 15), (1092931437335629410088172072016250375614462441571488574320590086296377657562604917062791143713583072159660834680056928387655141606, 10775646107690240905055753454789365763025797631558876379605576823207945392659284159768287559095394061088109694176121255699858301779969, 22), (790324003024993334988259323959351905154358893757642348786254268056547077231743928582672030555428995976439269245, 7792119324197319560170637433947588475546626747392347263099559822019782881639021164973543055100574042574343444299777, 19)]),
  ("position.nonCurrentAssets.InvestmentProperties", [(741365933887279238282509477069430468564655635282004646545683151964538326524942355841814342024820751477680441349, 7792119324197319560170637433947588475546626747392347263099559822019782881639021164973543055100574042574343444299777, 19), (1025227747098127408741998379743677755157689503994755724381467805244982434613586502221532279955229693104341520936570866467516319949, 10775646107690240905055753454789365763025797631558876379605576823207945392659284159768287559095394061088109694176121255699858301779969, 22), (647986644951788178005605655823630878447056663664636743766241147188161012668870834784066653236233988, 6277650175922495731332724834266066050938102107198415429558826743621126226931805673956739876428863045633, 17), (880510287946342309222743643589787599098921388814168579305274981932791765654732979832409198533567051813728867579594873, 8681301436639448287140389383447649639256678965417530186333639891989926365611494787172168973747265848294629497759157452801, 20)]),
  ("position.nonCurrentAssets.Goodwill", [(221584027486633697696960805717818309193565033, 2373744297944997374035172524615442343809130168321, 8), (763628393173220014435616956427859406028372032280639416189696282772655790942106139178402590284743013858876081079978046, 8681301436639448287140389383447649639256678965417530186333639891989926365611494787172168973747265848294629497759157452801, 20), (709375134769938693372173603247482186367325302031002108360020012555049184560931065708846342448491434149714, 6994011670447539486722296063278669646208801752957148209472073139815963804065674814828965333947789894359318529, 18)]),
  ("position.nonCurrentAssets.IntangibleAssetsOtherThanGoodwill", [(597274732541364649836025855997160840026715218410654613898205347546702465099484496482682053822449377, 6277650175922495731332724834266066050938102107198415429558826743621126226931805673956739876428863045633, 17), (216099734064667133646195866518406365958, 2130613589415972503718359380615289781026817, 7), (309420740559721262546890329348593258462188395919671493688, 2946404832442318725966701022588270735938585352312168003534849, 10), (247151390559609919180813912371695163581530995, 2373744297944997374035172524615442343809130168321, 8), (232237083959379731312577672847649424751330142, 2373744297944997374035172524615442343809130168321, 8), (920218817209844804345115747828955505490874816495282359916887481856522267249575487699856119269178340209787521605296996288704, 9671950787478685649530840637161011282541176372198220808486730540984572832970519291820746691848487596041074553636948187212480513, 21)]),
  ("position.nonCurrentAssets.InvestmentsInSubsidiariesAssociatesOrJointVentures", [(1759813158255596993442223149782405304029139157028724170242604957326993715267879978421202136407351250022124939522610348038924089318108754621430910559084623760121, 18496498814720413708176789106624683890808483716271529924558460469448754994233855516919659569590149672793689219232172316104596441456678303425594682499852451992764417, 27), (1417777490676709259305721188560103982032366755149645589804083966203741375531135582584728734563797151619015396965802450228243132108663737961437268511, 14901536309589433887616097083784748898819385931435032148879290920043171361719045480696767504165369366261422551444828026055229515609788134614685993992193, 25), (640320960296158444844773907495524782382150647127820113823926549332600034176121101471026024411797153056659, 6994011670447539486722296063278669646208801752957148209472073139815963804065674814828965333947789894359318529, 18), (435977753569641709930833410825222459612566109698945118021963756345114028059264462, 4539514267404014259318412174098839685989325087518502726842003561622948413114873151489, 14)]),
  ("position.nonCurrentAssets.DeferredTaxAssets", [(706395819036099802954563988003559436142874367329247200315522239405247216661856984975266670966264777721142642548, 7792119324197319560170637433947588475546626747392347263099559822019782881639021164973543055100574042574343444299777, 19), (580370781968008497526081872342151612734633904709244247653161523232587410693847028252616011625727692, 6277650175922495731332724834266066050938102107198415429558826743621126226931805673956739876428863045633, 17), (344729624568737853675162023102484627716677682131739949445809254, 3282627927086809042742939176378886074428745142620566430922221223937, 11)]),
  ("position.nonCurrentAssets.NoncurrentAssets", [(1404619834074816072158047298504047242519057460572513041782342288967771544167519092585409012206709507791347244015273535239413905143401203501450, 13375246774420039877118476387749491208539336612565361097913129924920695981214693196019405126917439583113582330916907015765213686232714396667740161, 24), (551271481057081675888004107698503424590090463106215026554187309759760021476980211242662561368, 5634661992026388464484953352367368526296795843149137860844301021190064407229612861493169791959041, 16), (338110988809173569475532804997743824306853632513710405908470073263311, 3657218447730466083037464194613009901040032537080427128054048654464122881, 12)]),
  ("position.currentLiabilities.TradeAndOtherPayablesCurrent", [(476723310705834119661062060934088040418585329341665839971030848256062649704449423, 4539514267404014259318412174098839685989325087518502726842003561622948413114873151489, 14), (495638576133862473044897804580503667257588005378474948891335383531399580898376180013840402030, 5634661992026388464484953352367368526296795843149137860844301021190064407229612861493169791959041, 16), (531123637860408968557944835893459628944012717375939160471100649011246699620330182084110, 5057531859000288538492014142521780579076624941230501628510125114050427925380650671424864257, 15), (208800323001490803001080288009640797215982422, 2373744297944997374035172524615442343809130168321, 8), (505753721563180981724356948409498493830216908009491615952582878955709480609228902329751570052, 5634661992026388464484953352367368526296795843149137860844301021190064407229612861493169791959041, 16)]),
  ("position.currentLiabilities.CurrentLoansAndBorrowings", [(1007031784823488372055859540306143542997003202228788946466825207117997742595638367388810794251916469981154314108258461288598, 9671950787478685649530840637161011282541176372198220808486730540984572832970519291820746691848487596041074553636948187212480513, 21), (449412311779755775995355199097631265087111628702461232124598838799371820409222491276811, 5057531859000288538492014142521780579076624941230501628510125114050427925380650671424864257, 15), (1200530012725062719332775370316662134830274450922381588298174141825080199626615630685854736212466717841253063816567858594349470038734805469560, 13375246774420039877118476387749491208539336612565361097913129924920695981214693196019405126917439583113582330916907015765213686232714396667740161, 24), (365722232123480841407075800720650270980585715810952738518886539657631106381, 4074554616456332759171118346252884299877413769984285908917680308570987335319553, 13)]),
  ("position.currentLiabilities.CurrentFinanceLeaseLiabilities", [(1337526094067157801423996366149607401022161559340464779785100186355558130810790011386695396342433252621631767995761152073505410364855073659853474305, 14901536309589433887616097083784748898819385931435032148879290920043171361719045480696767504165369366261422551444828026055229515609788134614685993992193, 25), (2145595605718745824742696804172744684449942165016238469618816121722607632366265687141755109989694322708103946719425154604824232411683411796994034232942999670737079046, 20607189783964604277657967041948946443640312218586423018839600068998960772890863471521912682054790422405195477106413195612240255180624234664399568503958114847014742917121, 28), (1457903122952156382710346023060747393964661450780502210797329249917027465518366449230724081832396250077310203601493444922307879289424421855336925681, 14901536309589433887616097083784748898819385931435032148879290920043171361719045480696767504165369366261422551444828026055229515609788134614685993992193, 25)]),
  ("position.currentLiabilities.CurrentIncomeTaxLiabilities", [(344729624568737853675162047963467447132498902031090579788792918, 3282627927086809042742939176378886074428745142620566430922221223937, 11), (294640795309591813370547941460077108728520629549738423816619131, 3282627927086809042742939176378886074428745142620566430922221223937, 11), (665431544095771416144714465266504759221858666551325508725959830014148035583457952338026519061689984550648, 6994011670447539486722296063278669646208801752957148209472073139815963804065674814828965333947789894359318529, 18)]),
  ("position.currentLiabilities.CurrentProvisions", [(1007031784823488372055859540306143542997003202228788946466825207118034767274093823418843965932296110088327019693558434498726, 9671950787478685649530840637161011282541176372198220808486730540984572832970519291820746691848487596041074553636948187212480513, 21), (627765682482946248932940882189467236069010800419814857491442304385957050532457330822172255417939382503313, 6994011670447539486722296063278669646208801752957148209472073139815963804065674814828965333947789894359318529, 18), (839282015664069965521956841531773548765352101065223112484257574711530372509669555805301612897736535366463916039, 7792119324197319560170637433947588475546626747392347263099559822019782881639021164973543055100574042574343444299777, 19)]),
  ("position.currentLiabilities.CurrentLiabilities", [(1564905217200595558600218549878239585427700573861824882697217658792912359777592622479301537080206219647037443566460598390390455092202176891996539403, 14901536309589433887616097083784748898819385931435032148879290920043171361719045480696767504165369366261422551444828026055229515609788134614685993992193, 25), (1121947202885051100656269840029098501119020228644722739514994031977883283028911114954124303376480261555584419420961343357181429974, 10775646107690240905055753454789365763025797631558876379605576823207945392659284159768287559095394061088109694176121255699858301779969, 22)]),
  ("position.nonCurrentLiabilities.NoncurrentLoansAndBorrowings", [(849341789667511741938554470041365201406785404589441968781758265949606809000682526072812841335300479303748647226312725, 8681301436639448287140389383447649639256678965417530186333639891989926365611494787172168973747265848294629497759157452801, 20), (309420709701081609710155889830943172669081906227536069631, 2946404832442318725966701022588270735938585352312168003534849, 10), (362064993979971027146829672691522791333179969338023156441461242924497831201, 4074554616456332759171118346252884299877413769984285908917680308570987335319553, 13), (625448047559001213861257856880369643012407017380125933899246374293782348008706630613277872467871433, 6277650175922495731332724834266066050938102107198415429558826743621126226931805673956739876428863045633, 17)]),
  ("position.nonCurrentLiabilities.NoncurrentFinanceLeaseLiabilities", [(1809619159124483139951972395919132130197112244672366708692308218190895309309905351340483691477079166168796217431992100863468868625515198765339061494609606478485, 18496498814720413708176789106624683890808483716271529924558460469448754994233855516919659569590149672793689219232172316104596441456678303425594682499852451992764417, 27), (1809619159124483139951972395919132130197112244672366708692308218190895309309905351340483691477079157329600232414591835535695177761635503001227944866728576092805, 18496498814720413708176789106624683890808483716271529924558460469448754994233855516919659569590149672793689219232172316104596441456678303425594682499852451992764417, 27), (2287400137629781145672637568262129556434316357916173826695163338668973806597045395365982837799017976354317612060012206973718152309964808625814114333810515516122127477443437, 22958738031782157165594350635006866569163439166785975508788443351672639183567758574847692703942108721877119548585457324603139827420050807954658196464650287206552136275622428673, 29)]),
  ("position.nonCurrentLiabilities.DeferredTaxLiabilities", [(1212535127726586030132068708466854595555964911760105448170565859181052349342119020044715645943060870654909754703517526302947045428136133790065, 13375246774420039877118476387749491208539336612565361097913129924920695981214693196019405126917439583113582330916907015765213686232714396667740161, 24), (996211955504785824142799653625225999714496279300368156799157142111340041408933529930456078613643681521712963788284962581202733257, 10775646107690240905055753454789365763025797631558876379605576823207945392659284159768287559095394061088109694176121255699858301779969, 22), (569101377063382423327558819702301487782729790143308173544971776810791981969813449602810659275736794, 6277650175922495731332724834266066050938102107198415429558826743621126226931805673956739876428863045633, 17)]),
  ("position.nonCurrentLiabilities.NoncurrentProvisions", [(849341789667511741938554470041365201406785404589441968781758302974285264456712559244493220975407652009333947199522853, 8681301436639448287140389383447649639256678965417530186333639891989926365611494787172168973747265848294629497759157452801, 20), (1505056531544904343441364409260245175299400458864569274063968696120408717849749277317521492570218080298354402591144234575324139854454739050715475817597662, 16601995322485612956833632770306677949910362518228877972484353444802057775318890917635517734368192160753612263057851686592469921324567888019971656824624119809, 26), (1112275226053699273579678919202043012985588643895044296548939216082401230408944029091143937797270815394393021836152821905439328588, 10775646107690240905055753454789365763025797631558876379605576823207945392659284159768287559095394061088109694176121255699858301779969, 22)]),
  ("position.nonCurrentLiabilities.NoncurrentLiabilities", [(2411043276333668384085400292666415319356055346995887442262355236995908915793326569523404282939511315508350618648901285286251645681083900742854801443498219470320721512041351, 22958738031782157165594350635006866569163439166785975508788443351672639183567758574847692703942108721877119548585457324603139827420050807954658196464650287206552136275622428673, 29), (946262729311840509346388736281195508634917907463356960165351076415946747462724885313519827946031093541604183791524506634325, 9671950787478685649530840637161011282541176372198220808486730540984572832970519291820746691848487596041074553636948187212480513, 21)]),
  ("position.equity.ShareCapital", [(424237684612955157725006152757741514661838379791968034157711705206940042526, 4074554616456332759171118346252884299877413769984285908917680308570987335319553, 13), (431903213582091994393422286877220713421363592738098024136628080407990850015921561, 4539514267404014259318412174098839685989325087518502726842003561622948413114873151489, 14), (512965511523393689510595960018270859522975463779796092218681039205737826347194845234621, 5057531859000288538492014142521780579076624941230501628510125114050427925380650671424864257, 15), (508426066523399868933109132574463980396605405599451131677860481664721892904183901128221, 5057531859000288538492014142521780579076624941230501628510125114050427925380650671424864257, 15), (328263122706313046207015140745818767211761809296879530254473744876761, 3657218447730466083037464194613009901040032537080427128054048654464122881, 12)]),
  ("position.equity.TreasuryShares", [(531123637860423597421887915226423798548017088366606278653869636138246683560659351176756, 5057531859000288538492014142521780579076624941230501628510125114050427925380650671424864257, 15), (296197655523388475821605173747917890576437780276948042756, 2946404832442318725966701022588270735938585352312168003534849, 10), (721930344967181697430616918138509432194865594729101387603145869181622718375166681556346399058923289773902, 6994011670447539486722296063278669646208801752957148209472073139815963804065674814828965333947789894359318529, 18), (476723310705847250163931230697805158496505370969198168097733043799523534878279121, 4539514267404014259318412174098839685989325087518502726842003561622948413114873151489, 14)]),
  ("position.equity.AccumulatedProfitsLosses", [(647986644951815415013793571454270613798734747744639693642753766319851092788113475859485018443024084, 6277650175922495731332724834266066050938102107198415429558826743621126226931805673956739876428863045633, 17), (685413771469439928744350045029325807097309576061634762315903033532779745967259342440909536117951087316438091714, 7792119324197319560170637433947588475546626747392347263099559822019782881639021164973543055100574042574343444299777, 19), (581616626815965180384569223637342544067553962429878920420272044499952693034715929053772514947, 5634661992026388464484953352367368526296795843149137860844301021190064407229612861493169791959041, 16), (763628393173132127333154061717757262922604863714756089948057676398305841095384425790744344106105847736978152171636755, 8681301436639448287140389383447649639256678965417530186333639891989926365611494787172168973747265848294629497759157452801, 20)]),
  ("position.equity.ReservesOtherThanAccumulatedProfitsLosses", [(245020757846360876626326339367427795275875191, 2373744297944997374035172524615442343809130168321, 8), (804311982422455510340318400431818035514602405016125427023655842849448076133055206300723302375604700930299070425, 7792119324197319560170637433947588475546626747392347263099559822019782881639021164973543055100574042574343444299777, 19), (818300087372684548470122891669610988082426848065150710464052091701323177570603370494803407878837529375223580638, 7792119324197319560170637433947588475546626747392347263099559822019782881639021164973543055100574042574343444299777, 19), (476649413682361755178989107545070201035946559625504023984391684226082303141944595908097, 5057531859000288538492014142521780579076624941230501628510125114050427925380650671424864257, 15), (453951826047167104685004063847691462075705463140090998467324524609432348512302748534281, 5057531859000288538492014142521780579076624941230501628510125114050427925380650671424864257, 15)]),
  ("position.equity.NoncontrollingInterests", [(690542116626207071788552065725513385175531661409577900200687776413878663415561823840364927543417833129870, 6994011670447539486722296063278669646208801752957148209472073139815963804065674814828965333947789894359318529, 18), (137778614632765, 1382890284319440897, 3), (2813651569156839360331789465147849895381267434480977354093814016128227245036793481366150531110372344249631736297353511690737262514371947558212208384287723618266154379260750070162787443, 28497482539371489444716930304208516512023149437971069887532538931023962204090195608498234451557444573111658792091327782968774076021976410466741666519050384694210162642003855402033528897537, 31), (1484653736554010664957920031026323297628643230938503762376520422373191952048720027530813712080084858295318099849050361685439876987298280512686131773, 14901536309589433887616097083784748898819385931435032148879290920043171361719045480696767504165369366261422551444828026055229515609788134614685993992193, 25)]),
  ("position.equity.Equity", [(384067797466807312240827283540945576924318187135378276855702543009009, 3657218447730466083037464194613009901040032537080427128054048654464122881, 12), (903886575978729676336667097712438455357108127979858245419785015196852971228613302960734829724011088311296725066254336, 8681301436639448287140389383447649639256678965417530186333639891989926365611494787172168973747265848294629497759157452801, 20), (811306012925735249778673346161869088106061169719640867147035368222840027204254238987191197158335635398482986878, 7792119324197319560170637433947588475546626747392347263099559822019782881639021164973543055100574042574343444299777, 19), (293552993414987501633810457885763984334926063917222790148, 2946404832442318725966701022588270735938585352312168003534849, 10)]),
  ("position.Assets", [(384067797466807312240827283540945576917452152253059772475714044691683, 3657218447730466083037464194613009901040032537080427128054048654464122881, 12), (168218108831743161071299985867417, 1912385538465104081649131982676164609, 6)]),
  ("position.Liabilities", [(659256019511186781945648874050546074302844455254593445789446606880271638322129164837585416979089120, 6277650175922495731332724834266066050938102107198415429558826743621126226931805673956739876428863045633, 17), (321158407066099756020355063385518105181430825622194382825260182, 3282627927086809042742939176378886074428745142620566430922221223937, 11)])
 ]

/-! ## JSON values
Tagged union for Python/JSON values, as consumed by the structural extractor,
the field-name translator and the validator.  `isinstance(v, (int, float))` is
true for Python booleans (`bool` subclasses `int`), so the numeric test below
accepts `jbool` as well. -/

/-- a JSON-decodable Python value. -/
inductive JVal where
  | jnull
  | jbool (b : Bool)
  | jnum (q : ℚ)
  | jstr (s : String)
  | jarr (xs : List JVal)
  | jobj (entries : List (String × JVal))

/-- Python `isinstance(v, (int, float))` (true for booleans). -/
def pyIsNum : JVal → Bool
  | .jnum _ => true
  | .jbool _ => true
  | _ => false

/-- Python `float(v)` on values accepted by `pyIsNum`: the identity on floats,
`True ↦ 1.0` / `False ↦ 0.0` on booleans, and
`OverflowError: int too large to convert to float` on integers of magnitude at
least `2^1024` (the max-double cutoff, exact up to the half-ulp rounding
boundary no claim touches).  A finite JSON number of that magnitude can only be
an integer literal — a float literal that large is already `inf` at
`json.loads` — so an integral value (denominator 1) at or above the cutoff is a
Python `int`.  The non-numeric default is dead code behind the `pyIsNum`
guard. -/
def pyFloatE : JVal → Except String ℚ
  | .jnum q =>
    if q.den == 1 && decide (2 ^ 1024 ≤ q.num.natAbs) then
      .error "int too large to convert to float"
    else .ok q
  | .jbool b => .ok (if b then 1 else 0)
  | _ => .ok 0

/-- Python `isinstance(v, dict)`. -/
def pyIsDict : JVal → Bool
  | .jobj _ => true
  | _ => false

/-- Python `isinstance(v, list)`. -/
def pyIsList : JVal → Bool
  | .jarr _ => true
  | _ => false

/-- the entries of a dict value, `[]` otherwise (tools.py lines 139-145: a
non-dict argument without a `.data` attribute is processed as `{}`). -/
def jEntries : JVal → List (String × JVal)
  | .jobj es => es
  | _ => []

/-- dictionary update on an association list: replace the first binding of the
key in place, else append (Python dict assignment). -/
def upsert (l : List (String × α)) (k : String) (v : α) : List (String × α) :=
  match l with
  | [] => [(k, v)]
  | (k', v') :: rest => if k' == k then (k, v) :: rest else (k', v') :: upsert rest k v

/-- first binding of a key in an association list (Python dict lookup). -/
def alookup (l : List (String × α)) (k : String) : Option α :=
  match l with
  | [] => none
  | (k', v') :: rest => if k' == k then some v' else alookup rest k

/-- Python `k in d` for a dict modelled as an association list. -/
def hasKey (l : List (String × α)) (k : String) : Bool :=
  (alookup l k).isSome

/-! ## Structural extractor
`extract_and_categorize_financial_data` of src/xbrl_mapping/services/ai/tools.py
(lines 119-228).  The three result buckets live in `B3`; empty buckets are
dropped on return (lines 223-226). -/

/-- the mutable `results` dict of the extractor: the `income_statement`,
`financial_position` and `unknown` buckets. -/
structure B3 where
  inc : List (String × ℚ)
  fp : List (String × ℚ)
  unk : List (String × ℚ)
  deriving DecidableEq, Repr

/-- `results[statement_type][field] = value` for a statement type produced by
the term matcher (always one of the three bucket names). -/
def bucketStore (acc : B3) (st field : String) (v : ℚ) : B3 :=
  if st == "income_statement" then { acc with inc := upsert acc.inc field v }
  else if st == "financial_position" then { acc with fp := upsert acc.fp field v }
  else if st == "unknown" then { acc with unk := upsert acc.unk field v }
  else acc

/-- merge one recursive result into the accumulator (tools.py lines 200-203 and
212-215): every returned bucket name is one of the three, so the guarded
`if statement_type in results` store always applies. -/
def mergeNested (acc : B3) (nested : List (String × List (String × ℚ))) : B3 :=
  nested.foldl (fun a st => st.2.foldl (fun a' fv => bucketStore a' st.1 fv.1 fv.2) a) acc

/-- the dict comprehension `{k: float(v) for k, v in ... if isinstance(v, (int,
float))}` of line 149, propagating a `float` overflow. -/
def floatEntries : List (String × JVal) → List (String × ℚ) → Except String (List (String × ℚ))
  | [], d => .ok d
  | (k, v) :: rest, d =>
    if pyIsNum v then do
      let f ← pyFloatE v
      floatEntries rest (upsert d k f)
    else floatEntries rest d

/-- special handling of a top-level `incomeStatement` container (lines 148-149):
its numeric entries are assigned (as a fresh dict) to the income bucket. -/
def incomeSpecial (es : List (String × JVal)) (acc : B3) : Except String B3 :=
  match alookup es "incomeStatement" with
  | some (.jobj inner) => do
    let d ← floatEntries inner []
    .ok { acc with inc := d }
  | _ => .ok acc

/-- the five flattened sub-sections of `statementOfFinancialPosition` (line 161). -/
def sfpSections : List String :=
  ["currentAssets", "nonCurrentAssets", "currentLiabilities", "nonCurrentLiabilities", "equity"]

/-- one store loop of the `statementOfFinancialPosition` special (lines 156-158
and 161-165): numeric entries stored into the position bucket under
`pre ++ key`, propagating a `float` overflow. -/
def sfpStoreE (pre : String) : List (String × JVal) → List (String × ℚ) → Except String (List (String × ℚ))
  | [], fp => .ok fp
  | (k, v) :: rest, fp =>
    if pyIsNum v then do
      let f ← pyFloatE v
      sfpStoreE pre rest (upsert fp (pre ++ k) f)
    else sfpStoreE pre rest fp

/-- the sub-section loop of lines 160-165. -/
def sfpSubsE (inner : List (String × JVal)) : List String → List (String × ℚ) → Except String (List (String × ℚ))
  | [], fp => .ok fp
  | sec :: rest, fp =>
    match alookup inner sec with
    | some (.jobj sub) => do
      let fp2 ← sfpStoreE (sec ++ ".") sub fp
      sfpSubsE inner rest fp2
    | _ => sfpSubsE inner rest fp

/-- special handling of a top-level `statementOfFinancialPosition` container
(lines 151-165): numeric top-level entries under their own key, numeric entries
of the five known sub-sections under `section.key`. -/
def sfpSpecial (es : List (String × JVal)) (acc : B3) : Except String B3 :=
  match alookup es "statementOfFinancialPosition" with
  | some (.jobj inner) => do
    let fp1 ← sfpStoreE "" inner acc.fp
    let fp2 ← sfpSubsE inner sfpSections fp1
    .ok { acc with fp := fp2 }
  | _ => .ok acc

/-- `list(value.values())[0]` for a one-entry dict (`jnull` default is dead code
behind the guard). -/
def singleEntryValue (es : List (String × JVal)) : JVal :=
  ((es.map Prod.snd).headD .jnull)

/-- Python `len(value) == 1 and isinstance(list(value.values())[0], (int, float))`
(tools.py line 191). -/
def singleNumericEntry (es : List (String × JVal)) : Bool :=
  es.length == 1 && pyIsNum (singleEntryValue es)

/-- drop empty buckets and return the result dict (lines 223-228). -/
def pruneB3 (r : B3) : List (String × List (String × ℚ)) :=
  (if r.inc.isEmpty then [] else [("income_statement", r.inc)]) ++
  (if r.fp.isEmpty then [] else [("financial_position", r.fp)]) ++
  (if r.unk.isEmpty then [] else [("unknown", r.unk)])

mutual

/-- body of `extract_and_categorize_financial_data` on the entries of its dict
argument: the two container specials, then the main loop, then pruning; a
`float` overflow propagates as the raised exception. -/
def extractDict (es : List (String × JVal)) (path : String) :
    Except String (List (String × List (String × ℚ))) := do
  let acc0 ← incomeSpecial es ⟨[], [], []⟩
  let acc1 ← sfpSpecial es acc0
  let acc2 ← extractLoop es path acc1
  .ok (pruneB3 acc2)
termination_by sizeOf es + 1
decreasing_by all_goals (simp_wf; try omega)

/-- the main `for key, value in items_dict.items()` loop (lines 168-221),
skipping the two consumed container keys. -/
def extractLoop : List (String × JVal) → String → B3 → Except String B3
  | [], _, acc => .ok acc
  | (k, v) :: rest, path, acc => do
    let acc2 ← (if k == "incomeStatement" || k == "statementOfFinancialPosition" then .ok acc
                else extractItem k v path acc)
    extractLoop rest path acc2
termination_by es => sizeOf es
decreasing_by all_goals (simp_wf; try omega)

/-- processing of one key/value pair of the main loop; `float_value =
float(value)` at line 177 runs before the term matching and can raise. -/
def extractItem (k : String) (v : JVal) (path : String) (acc : B3) : Except String B3 :=
  let currentPath := if path == "" then k else path ++ "_" ++ k
  if pyIsNum v then do
    let fv ← pyFloatE v
    let ti := matchFinancialTerm currentPath "all"
    if ti.statement_type != "unknown" then .ok (bucketStore acc ti.statement_type ti.field fv)
    else
      let ti2 := matchFinancialTerm k "all"
      if ti2.statement_type != "unknown" then .ok (bucketStore acc ti2.statement_type ti2.field fv)
      else .ok { acc with unk := upsert acc.unk currentPath fv }
  else
    match v with
    | .jobj es =>
      if singleNumericEntry es then
        let ti := matchFinancialTerm currentPath "all"
        if ti.statement_type != "unknown" then do
          let sv ← pyFloatE (singleEntryValue es)
          .ok (bucketStore acc ti.statement_type ti.field sv)
        else do
          let sv ← pyFloatE (singleEntryValue es)
          .ok { acc with unk := upsert acc.unk currentPath sv }
      else do
        let r ← extractDict es currentPath
        .ok (mergeNested acc r)
    | .jarr xs => extractList 0 xs currentPath acc
    | _ => .ok acc
termination_by sizeOf v + 1
decreasing_by all_goals (simp_wf; try omega)

/-- one element of the list branch: recurse into a dict element with an indexed
path; classify the first element of a numeric list (`float(item)` at line 219
can raise); ignore everything else. -/
def extractListItem (i : Nat) (item : JVal) (currentPath : String) (acc : B3) : Except String B3 :=
  match item with
  | .jobj es => do
    let r ← extractDict es (currentPath ++ "[" ++ toString i ++ "]")
    .ok (mergeNested acc r)
  | _ =>
    if pyIsNum item && i == 0 then
      let ti := matchFinancialTerm currentPath "all"
      if ti.statement_type != "unknown" then do
        let fv ← pyFloatE item
        .ok (bucketStore acc ti.statement_type ti.field fv)
      else do
        let fv ← pyFloatE item
        .ok { acc with unk := upsert acc.unk currentPath fv }
    else .ok acc
termination_by sizeOf item + 1
decreasing_by all_goals (simp_wf; try omega)

/-- the list branch (lines 206-221), element by element. -/
def extractList : Nat → List JVal → String → B3 → Except String B3
  | _, [], _, acc => .ok acc
  | i, item :: rest, currentPath, acc => do
    let acc2 ← extractListItem i item currentPath acc
    extractList (i + 1) rest currentPath acc2
termination_by _i xs => sizeOf xs
decreasing_by
  all_goals (simp_wf
             try omega
             try (have hp : 0 < sizeOf rest := by cases rest <;> simp_arith
                  omega))

end

/-- `extract_and_categorize_financial_data(context, data, field_path)`: a dict
is processed by `extractDict`; any other value is processed as the empty dict
and yields the empty result. -/
def extract (v : JVal) (path : String) : Except String (List (String × List (String × ℚ))) :=
  extractDict (jEntries v) path

mutual

/-- no integer leaf of magnitude at least `2^1024` anywhere in the value: the
inputs on which every embedded `float` conversion succeeds. -/
def jNoHuge : JVal → Bool
  | .jnum q => !(q.den == 1 && decide (2 ^ 1024 ≤ q.num.natAbs))
  | .jobj es => jNoHugeEntries es
  | .jarr xs => jNoHugeList xs
  | _ => true
termination_by v => sizeOf v
decreasing_by all_goals (simp_wf; try omega)

/-- `jNoHuge` on dict entries. -/
def jNoHugeEntries : List (String × JVal) → Bool
  | [] => true
  | (_, v) :: rest => jNoHuge v && jNoHugeEntries rest
termination_by es => sizeOf es
decreasing_by all_goals (simp_wf; try omega)

/-- `jNoHuge` on list elements. -/
def jNoHugeList : List JVal → Bool
  | [] => true
  | v :: rest => jNoHuge v && jNoHugeList rest
termination_by xs => sizeOf xs
decreasing_by all_goals (simp_wf; try omega)

end

mutual

/-- recursive replacement of every boolean leaf by the number Python's `float`
turns it into (`True ↦ 1.0`, `False ↦ 0.0`). -/
def boolToNumV : JVal → JVal
  | .jbool b => .jnum (if b then 1 else 0)
  | .jobj es => .jobj (boolToNumEntries es)
  | .jarr xs => .jarr (boolToNumList xs)
  | v => v
termination_by v => sizeOf v
decreasing_by all_goals (simp_wf; try omega)

/-- `boolToNumV` on dict entries. -/
def boolToNumEntries : List (String × JVal) → List (String × JVal)
  | [] => []
  | (k, v) :: rest => (k, boolToNumV v) :: boolToNumEntries rest
termination_by es => sizeOf es
decreasing_by all_goals (simp_wf; try omega)

/-- `boolToNumV` on list elements. -/
def boolToNumList : List JVal → List JVal
  | [] => []
  | v :: rest => boolToNumV v :: boolToNumList rest
termination_by xs => sizeOf xs
decreasing_by all_goals (simp_wf; try omega)

end

/-! ## Taxonomy tagger
`apply_tags_to_element` and `tag_statement_section` of
src/xbrl_tagging/services/tools.py.  The process-wide `_tags_cache` dict is
passed and returned explicitly.  Wall-clock derived fields
(`processing_time_ms`) are modelled as `0`: the claims only concern their
presence, never their value. -/

/-- `FinancialTag` of src/xbrl_tagging/services/models.py (the pydantic model's
declared fields; the `dict()` form carries the same data and is modelled by the
tag itself). -/
structure FinancialTag where
  tagPrefix : String
  element_name : String
  element_id : String
  abstract : Bool
  data_type : String
  balance_type : Option String
  period_type : String
  substitution_group : String
  deriving DecidableEq, Repr

/-- `XBRLTaxonomyDependencies` of src/xbrl_tagging/services/dependencies.py
(the fields the two tools read). -/
structure TagDeps where
  field_tags : List (String × List FinancialTag)
  mandatory_fields : List (String × Bool)
  statement_tags : List FinancialTag
  deriving DecidableEq, Repr

/-- a Python value in the tagging module's dictionaries (`ttag` stands for a
`tag.dict()` record). -/
inductive TVal where
  | tnull
  | tbool (b : Bool)
  | tnum (q : ℚ)
  | tstr (s : String)
  | tlist (xs : List TVal)
  | tdict (es : List (String × TVal))
  | ttag (t : FinancialTag)

/-- dict of result/cache entries in the tagging module. -/
abbrev TDict := List (String × TVal)

/-- the process-wide `_tags_cache`, keyed by `f"{element_name}:{statement_type}"`. -/
abbrev TagCache := List (String × TDict)

/-- remove a key from a dict (`d.copy()` followed by `d.pop(k, None)`). -/
def eraseKey (l : List (String × α)) (k : String) : List (String × α) :=
  match l with
  | [] => []
  | (k', v') :: rest => if k' == k then rest else (k', v') :: eraseKey rest k

/-- fuzzy tag lookup (tools.py lines 63-69 and 212-221): the first table entry
whose lowered name contains, or is contained in, the lowered element name. -/
def fuzzyFindTags (fieldTags : List (String × List FinancialTag)) (elementLower : String) :
    Option (String × List FinancialTag) :=
  fieldTags.find? (fun ft =>
    let fieldLower := pyLower ft.1
    pyInStr elementLower fieldLower || pyInStr fieldLower elementLower)

/-- tag lookup for one element: exact match in `field_tags`, else the fuzzy
first match; returns the tags and the per-element messages in source order. -/
def findTagsWithMessages (deps : TagDeps) (elementName : String) :
    List FinancialTag × List String :=
  match alookup deps.field_tags elementName with
  | some tags => (tags, ["Found exact tag match for " ++ elementName])
  | none =>
    let msgs := ["No exact tag match found for " ++ elementName]
    match fuzzyFindTags deps.field_tags (pyLower elementName) with
    | some ft => (ft.2, msgs ++ ["Using similar tag: " ++ ft.1])
    | none => ([], msgs)

/-- `apply_tags_to_element(context, element_name, value, statement_type, ...)`
(tools.py lines 23-93), returning the result dict and the updated cache.  On a
cache hit the cached entry is copied and the current `value` is substituted;
on a miss the computed entry minus its `value` is stored in the cache. -/
def applyTagsToElement (deps : TagDeps) (cache : TagCache) (elementName : String)
    (value : TVal) (statementType : String) : TDict × TagCache :=
  let cacheKey := elementName ++ ":" ++ statementType
  match alookup cache cacheKey with
  | some entry => (upsert entry "value" value, cache)
  | none =>
    let (tags, messages) := findTagsWithMessages deps elementName
    let isMandatory := (alookup deps.mandatory_fields elementName).getD false
    let messages' := if isMandatory then messages ++ ["Note: " ++ elementName ++ " is a mandatory field"]
                     else messages
    let result : TDict :=
      [("element_name", .tstr elementName), ("value", value),
       ("tags", .tlist (tags.map .ttag)), ("is_mandatory", .tbool isMandatory),
       ("messages", .tlist (messages'.map .tstr)), ("processing_time_ms", .tnum 0)]
    (result, upsert cache cacheKey (eraseKey result "value"))

/-- equality of a Python value against a string (Python `==`; only a string
compares equal to a string). -/
def jEqStr (v : JVal) (s : String) : Bool :=
  match v with
  | .jstr s' => pyStrEq s' s
  | _ => false

/-- Python `k in v`: key membership for dicts, substring for strings, element
membership for lists; `TypeError` on numbers, booleans and `None`. -/
def pyHasKeyJ (k : String) (v : JVal) : Except String Bool :=
  match v with
  | .jobj es => .ok (hasKey es k)
  | .jstr s => .ok (pyInStr k s)
  | .jarr xs => .ok (xs.any (fun x => jEqStr x k))
  | _ => .error "argument of type is not iterable"

/-- Python `v[k]` on the results of a successful membership test: dict lookup;
`TypeError` on strings and lists (string indices / list indices must be
integers) and on everything else. -/
def pySubscriptJ (v : JVal) (k : String) : Except String JVal :=
  match v with
  | .jobj es =>
    match alookup es k with
    | some x => .ok x
    | none => .error ("KeyError: " ++ k)
  | _ => .error "indices must be integers"

/-- Python `v.get(k, dflt)`: `AttributeError` when `v` is not a dict. -/
def pyGetD (v : JVal) (k : String) (dflt : JVal) : Except String JVal :=
  match v with
  | .jobj es => .ok ((alookup es k).getD dflt)
  | _ => .error "object has no attribute get"

/-- Python `v.get(k)` (default `None`). -/
def pyGet (v : JVal) (k : String) : Except String JVal :=
  pyGetD v k .jnull

/-- Python `next((k for k in ks if k in v), None)`: the first key of `ks`
contained in `v`, evaluated lazily. -/
def firstKeyIn (ks : List String) (v : JVal) : Except String (Option String) :=
  match ks with
  | [] => .ok none
  | k :: rest => do
    let b ← pyHasKeyJ k v
    if b then pure (some k) else firstKeyIn rest v

/-! ## Field-name translator
`map_pydantic_to_django_fields` of src/xbrl_mapping/services/processors/storage.py
(lines 18-362).  Input and output are top-level dicts (association lists of
`JVal`). -/

/-- `filing_info_mapping` (storage.py lines 29-60). -/
def filingInfoMapping : List (String × String) :=
  [("NameOfCompany", "company_name"),
   ("UniqueEntityNumber", "unique_entity_number"),
   ("CurrentPeriodStartDate", "current_period_start"),
   ("CurrentPeriodEndDate", "current_period_end"),
   ("PriorPeriodStartDate", "prior_period_start"),
   ("TypeOfXBRLFiling", "xbrl_filing_type"),
   ("NatureOfFinancialStatementsCompanyLevelOrConsolidated", "financial_statement_type"),
   ("TypeOfAccountingStandardUsedToPrepareFinancialStatements", "accounting_standard"),
   ("DateOfAuthorisationForIssueOfFinancialStatements", "authorisation_date"),
   ("TypeOfStatementOfFinancialPosition", "financial_position_type"),
   ("WhetherTheFinancialStatementsArePreparedOnGoingConcernBasis", "is_going_concern"),
   ("WhetherThereAreAnyChangesToComparativeAmounts", "has_comparative_changes"),
   ("DescriptionOfPresentationCurrency", "presentation_currency"),
   ("DescriptionOfFunctionalCurrency", "functional_currency"),
   ("LevelOfRoundingUsedInFinancialStatements", "rounding_level"),
   ("DescriptionOfNatureOfEntitysOperationsAndPrincipalActivities", "entity_operations_description"),
   ("PrincipalPlaceOfBusinessIfDifferentFromRegisteredOffice", "principal_place_of_business"),
   ("WhetherCompanyOrGroupIfConsolidatedAccountsArePreparedHasMoreThan50Employees", "has_more_than_50_employees"),
   ("NameOfParentEntity", "parent_entity_name"),
   ("NameOfUltimateParentOfGroup", "ultimate_parent_name"),
   ("TaxonomyVersion", "taxonomy_version"),
   ("NameAndVersionOfSoftwareUsedToGenerateXBRLFile", "xbrl_software"),
   ("HowWasXBRLFilePrepared", "xbrl_preparation_method")]

/-- `directors_statement_mapping` (storage.py lines 63-66). -/
def directorsStatementMapping : List (String × String) :=
  [("WhetherInDirectorsOpinionFinancialStatementsAreDrawnUpSoAsToExhibitATrueAndFairView", "directors_opinion_true_fair_view"),
   ("WhetherThereAreReasonableGroundsToBelieveThatCompanyWillBeAbleToPayItsDebtsAsAndWhenTheyFallDueAtDateOfStatement", "reasonable_grounds_company_debts")]

/-- `audit_report_mapping` (storage.py lines 69-74). -/
def auditReportMapping : List (String × String) :=
  [("TypeOfAuditOpinionInIndependentAuditorsReport", "audit_opinion"),
   ("AuditingStandardsUsedToConductTheAudit", "auditing_standards"),
   ("WhetherThereIsAnyMaterialUncertaintyRelatingToGoingConcern", "material_uncertainty_going_concern"),
   ("WhetherInAuditorsOpinionAccountingAndOtherRecordsRequiredAreProperlyKept", "proper_accounting_records")]

/-- `current_assets_mapping` (storage.py lines 77-89). -/
def currentAssetsMapping : List (String × String) :=
  [("CashAndBankBalances", "cash_and_bank_balances"),
   ("TradeAndOtherReceivablesCurrent", "trade_and_other_receivables"),
   ("CurrentFinanceLeaseReceivables", "current_finance_lease_receivables"),
   ("CurrentDerivativeFinancialAssets", "current_derivative_financial_assets"),
   ("CurrentFinancialAssetsMeasuredAtFairValueThroughProfitOrLoss", "current_financial_assets_at_fair_value"),
   ("OtherCurrentFinancialAssets", "other_current_financial_assets"),
   ("DevelopmentProperties", "development_properties"),
   ("Inventories", "inventories"),
   ("OtherCurrentNonfinancialAssets", "other_current_nonfinancial_assets"),
   ("NoncurrentAssetsOrDisposalGroupsClassifiedAsHeldForSaleOrAsHeldForDistributionToOwners", "held_for_sale_assets"),
   ("CurrentAssets", "total_current_assets")]

/-- `noncurrent_assets_mapping` (storage.py lines 92-106). -/
def noncurrentAssetsMapping : List (String × String) :=
  [("TradeAndOtherReceivablesNoncurrent", "trade_and_other_receivables"),
   ("NoncurrentFinanceLeaseReceivables", "noncurrent_finance_lease_receivables"),
   ("NoncurrentDerivativeFinancialAssets", "noncurrent_derivative_financial_assets"),
   ("NoncurrentFinancialAssetsMeasuredAtFairValueThroughProfitOrLoss", "noncurrent_financial_assets_at_fair_value"),
   ("OtherNoncurrentFinancialAssets", "other_noncurrent_financial_assets"),
   ("PropertyPlantAndEquipment", "property_plant_equipment"),
   ("InvestmentProperties", "investment_properties"),
   ("Goodwill", "goodwill"),
   ("IntangibleAssetsOtherThanGoodwill", "intangible_assets"),
   ("InvestmentsInSubsidiariesAssociatesOrJointVentures", "investments_in_entities"),
   ("DeferredTaxAssets", "deferred_tax_assets"),
   ("OtherNoncurrentNonfinancialAssets", "other_noncurrent_nonfinancial_assets"),
   ("NoncurrentAssets", "total_noncurrent_assets")]

/-- `current_liabilities_mapping` (storage.py lines 109-120). -/
def currentLiabilitiesMapping : List (String × String) :=
  [("TradeAndOtherPayablesCurrent", "trade_and_other_payables"),
   ("CurrentLoansAndBorrowings", "current_loans_and_borrowings"),
   ("CurrentFinancialLiabilitiesMeasuredAtFairValueThroughProfitOrLoss", "current_financial_liabilities_at_fair_value"),
   ("CurrentFinanceLeaseLiabilities", "current_finance_lease_liabilities"),
   ("OtherCurrentFinancialLiabilities", "other_current_financial_liabilities"),
   ("CurrentIncomeTaxLiabilities", "current_income_tax_liabilities"),
   ("CurrentProvisions", "current_provisions"),
   ("OtherCurrentNonfinancialLiabilities", "other_current_nonfinancial_liabilities"),
   ("LiabilitiesClassifiedAsHeldForSale", "liabilities_held_for_sale"),
   ("CurrentLiabilities", "total_current_liabilities")]

/-- `noncurrent_liabilities_mapping` (storage.py lines 123-133). -/
def noncurrentLiabilitiesMapping : List (String × String) :=
  [("TradeAndOtherPayablesNoncurrent", "trade_and_other_payables"),
   ("NoncurrentLoansAndBorrowings", "noncurrent_loans_and_borrowings"),
   ("NoncurrentFinancialLiabilitiesMeasuredAtFairValueThroughProfitOrLoss", "noncurrent_financial_liabilities_at_fair_value"),
   ("NoncurrentFinanceLeaseLiabilities", "noncurrent_finance_lease_liabilities"),
   ("OtherNoncurrentFinancialLiabilities", "other_noncurrent_financial_liabilities"),
   ("DeferredTaxLiabilities", "deferred_tax_liabilities"),
   ("NoncurrentProvisions", "noncurrent_provisions"),
   ("OtherNoncurrentNonfinancialLiabilities", "other_noncurrent_nonfinancial_liabilities"),
   ("NoncurrentLiabilities", "total_noncurrent_liabilities")]

/-- `equity_mapping` (storage.py lines 136-143). -/
def equityMapping : List (String × String) :=
  [("ShareCapital", "share_capital"),
   ("TreasuryShares", "treasury_shares"),
   ("AccumulatedProfitsLosses", "accumulated_profits_losses"),
   ("ReservesOtherThanAccumulatedProfitsLosses", "other_reserves"),
   ("NoncontrollingInterests", "noncontrolling_interests"),
   ("Equity", "total_equity")]

/-- `income_statement_mapping` (storage.py lines 146-164). -/
def incomeStatementMapping : List (String × String) :=
  [("Revenue", "revenue"),
   ("OtherIncome", "other_income"),
   ("EmployeeBenefitsExpense", "employee_expenses"),
   ("DepreciationExpense", "depreciation_expense"),
   ("AmortisationExpense", "amortisation_expense"),
   ("RepairsAndMaintenanceExpense", "repairs_and_maintenance_expense"),
   ("SalesAndMarketingExpense", "sales_and_marketing_expense"),
   ("OtherExpensesByNature", "other_expenses_by_nature"),
   ("OtherGainsLosses", "other_gains_losses"),
   ("FinanceCosts", "finance_costs"),
   ("ShareOfProfitLossOfAssociatesAndJointVenturesAccountedForUsingEquityMethod", "share_of_profit_loss_of_associates_and_joint_ventures_accounted_for_using_equity_method"),
   ("ProfitLossBeforeTaxation", "profit_loss_before_taxation"),
   ("TaxExpenseBenefitContinuingOperations", "tax_expense_benefit_continuing_operations"),
   ("ProfitLossFromDiscontinuedOperations", "profit_loss_from_discontinued_operations"),
   ("ProfitLoss", "profit_loss"),
   ("ProfitLossAttributableToOwnersOfCompany", "profit_loss_attributable_to_owners_of_company"),
   ("ProfitLossAttributableToNoncontrollingInterests", "profit_loss_attributable_to_noncontrolling_interests")]

/-- `trade_receivables_mapping` (storage.py lines 167-173). -/
def tradeReceivablesMapping : List (String × String) :=
  [("TradeAndOtherReceivablesDueFromThirdParties", "receivables_from_third_parties"),
   ("TradeAndOtherReceivablesDueFromRelatedParties", "receivables_from_related_parties"),
   ("UnbilledReceivables", "unbilled_receivables"),
   ("OtherReceivables", "other_receivables"),
   ("TradeAndOtherReceivables", "total_trade_and_other_receivables")]

/-- `trade_payables_mapping` (storage.py lines 176-182). -/
def tradePayablesMapping : List (String × String) :=
  [("TradeAndOtherPayablesDueToThirdParties", "payables_to_third_parties"),
   ("TradeAndOtherPayablesDueToRelatedParties", "payables_to_related_parties"),
   ("DeferredIncome", "deferred_income"),
   ("OtherPayables", "other_payables"),
   ("TradeAndOtherPayables", "total_trade_and_other_payables")]

/-- `revenue_mapping` (storage.py lines 185-194). -/
def revenueMapping : List (String × String) :=
  [("RevenueFromPropertyTransferredAtPointInTime", "revenue_from_property_point_in_time"),
   ("RevenueFromGoodsTransferredAtPointInTime", "revenue_from_goods_point_in_time"),
   ("RevenueFromServicesTransferredAtPointInTime", "revenue_from_services_point_in_time"),
   ("RevenueFromPropertyTransferredOverTime", "revenue_from_property_over_time"),
   ("RevenueFromConstructionContractsOverTime", "revenue_from_construction_over_time"),
   ("RevenueFromServicesTransferredOverTime", "revenue_from_services_over_time"),
   ("OtherRevenue", "other_revenue"),
   ("Revenue", "total_revenue")]

/-- one section body: copy the value of each mapped PascalCase key present in
the section value, under its snake_case name, in mapping order (the name pairs
within one table are distinct, so appending matches dict insertion). -/
def mapSectionFields (mapping : List (String × String)) (sec : JVal) :
    Except String (List (String × JVal)) :=
  match mapping with
  | [] => .ok []
  | (pascal, snake) :: rest => do
    let b ← pyHasKeyJ pascal sec
    if b then do
      let v ← pySubscriptJ sec pascal
      let tail ← mapSectionFields rest sec
      pure ((snake, v) :: tail)
    else
      mapSectionFields rest sec

/-- a flat section (storage.py lines 200-230 and 301-309): if the trigger key
is present, append the mapped section under its storage name. -/
def mapFlatSection (input : List (String × JVal)) (trigger snakeKey : String)
    (mapping : List (String × String)) (acc : List (String × JVal)) :
    Except String (List (String × JVal)) :=
  match alookup input trigger with
  | none => .ok acc
  | some sec => do
    let fields ← mapSectionFields mapping sec
    pure (acc ++ [(snakeKey, .jobj fields)])

/-- one sub-section of the financial position or notes sections: if present in
the parent value, append its mapped body under the storage name. -/
def mapSubSection (parent : JVal) (trigger snakeKey : String)
    (mapping : List (String × String)) (acc : List (String × JVal)) :
    Except String (List (String × JVal)) := do
  let b ← pyHasKeyJ trigger parent
  if b then do
    let sub ← pySubscriptJ parent trigger
    let fields ← mapSectionFields mapping sub
    pure (acc ++ [(snakeKey, .jobj fields)])
  else
    pure acc

/-- one of the two parent-level totals of the financial-position section
(storage.py lines 238-241). -/
def mapFPTotal (fp : JVal) (pascal snake : String) (acc : List (String × JVal)) :
    Except String (List (String × JVal)) := do
  let b ← pyHasKeyJ pascal fp
  if b then do
    let v ← pySubscriptJ fp pascal
    pure (acc ++ [(snake, v)])
  else pure acc

/-- the `StatementOfFinancialPosition` section (storage.py lines 233-298). -/
def mapFinancialPositionSection (input : List (String × JVal))
    (acc : List (String × JVal)) : Except String (List (String × JVal)) :=
  match alookup input "StatementOfFinancialPosition" with
  | none => .ok acc
  | some fp => do
    let m1 ← mapFPTotal fp "Assets" "total_assets" []
    let m2 ← mapFPTotal fp "Liabilities" "total_liabilities" m1
    let m3 ← mapSubSection fp "CurrentAssets" "current_assets" currentAssetsMapping m2
    let m4 ← mapSubSection fp "NonCurrentAssets" "noncurrent_assets" noncurrentAssetsMapping m3
    let m5 ← mapSubSection fp "CurrentLiabilities" "current_liabilities" currentLiabilitiesMapping m4
    let m6 ← mapSubSection fp "NonCurrentLiabilities" "noncurrent_liabilities" noncurrentLiabilitiesMapping m5
    let m7 ← mapSubSection fp "Equity" "equity" equityMapping m6
    pure (acc ++ [("statement_of_financial_position", .jobj m7)])

/-- the `Notes` section (storage.py lines 312-349). -/
def mapNotesSection (input : List (String × JVal)) (acc : List (String × JVal)) :
    Except String (List (String × JVal)) :=
  match alookup input "Notes" with
  | none => .ok acc
  | some notes => do
    let m1 ← mapSubSection notes "TradeAndOtherReceivables" "trade_and_other_receivables" tradeReceivablesMapping []
    let m2 ← mapSubSection notes "TradeAndOtherPayables" "trade_and_other_payables" tradePayablesMapping m1
    let m3 ← mapSubSection notes "Revenue" "revenue" revenueMapping m2
    pure (acc ++ [("notes", .jobj m3)])

/-- one top-level backfill (storage.py lines 352-360): if the storage field is
not yet in `filing_information` and the canonical top-level key exists, insert
it into (a possibly fresh) `filing_information`. -/
def backfillField (input acc : List (String × JVal)) (snakeField pascalKey : String) :
    List (String × JVal) :=
  let fi := (alookup acc "filing_information").getD (.jobj [])
  let fiEntries := jEntries fi
  if !(hasKey fiEntries snakeField) && hasKey input pascalKey then
    upsert acc "filing_information"
      (.jobj (upsert fiEntries snakeField ((alookup input pascalKey).getD .jnull)))
  else acc

/-- `map_pydantic_to_django_fields(pydantic_data_dict)` (storage.py lines
18-362): the canonical→storage field-name translator. -/
def mapPydanticToDjangoFields (input : List (String × JVal)) :
    Except String (List (String × JVal)) := do
  let acc1 ← mapFlatSection input "FilingInformation" "filing_information" filingInfoMapping []
  let acc2 ← mapFlatSection input "DirectorsStatement" "directors_statement" directorsStatementMapping acc1
  let acc3 ← mapFlatSection input "AuditReport" "audit_report" auditReportMapping acc2
  let acc4 ← mapFinancialPositionSection input acc3
  let acc5 ← mapFlatSection input "IncomeStatement" "income_statement" incomeStatementMapping acc4
  let acc6 ← mapNotesSection input acc5
  let acc7 := backfillField input acc6 "company_name" "NameOfCompany"
  pure (backfillField input acc7 "unique_entity_number" "UniqueEntityNumber")

/-! ## Cross-statement validator
`ACRAXBRLValidator` of src/xbrl_validation/validators.py.  Checkers run in a
small state monad `VM` threading the per-section error map; a Python exception
is an `Except.error` carrying the exception text, aborting the remaining
checks; `validate` converts it into a `general` error (lines 161-164).

Modelling notes kept minimal and local:
* `Decimal(str(v))` is exact rational arithmetic; the string parser accepts
  plain signed decimal literals and treats everything else (exponents, spaces,
  `NaN`/`Infinity`, non-numeric text) as the `InvalidOperation`-style failure —
  the validator converts either form of failure into the same `general` error.
* messages render values through `ratStr`, which agrees with Python's
  `str(Decimal(...))` on integral values (the only ones the claims evaluate).
* where the source interpolates `', '.join(<set literal>)` the element order of
  a Python string set is hash-dependent; the embedding fixes the source-literal
  order.  No claim inspects those messages. -/

/-- the per-section error map `self.errors` (insertion-ordered). -/
abbrev ErrMap := List (String × List String)

/-- `_add_error` (validators.py lines 587-592): append to the section's list,
creating the section at the end of the map on first use. -/
def addError : ErrMap → String → String → ErrMap
  | [], sec, msg => [(sec, [msg])]
  | (k, ms) :: rest, sec, msg =>
    if k == sec then (k, ms ++ [msg]) :: rest else (k, ms) :: addError rest sec msg

/-- validator computations: state = error map, failure = Python exception text. -/
def VM (α : Type) : Type := ErrMap → Except String α × ErrMap

instance : Monad VM where
  pure a := fun errs => (.ok a, errs)
  bind x f := fun errs =>
    match x errs with
    | (.ok a, errs') => f a errs'
    | (.error e, errs') => (.error e, errs')

/-- lift a fallible Python operation into `VM`. -/
def vmLift (x : Except String α) : VM α := fun errs => (x, errs)

/-- `self._add_error(section, message)`. -/
def vmErr (sec msg : String) : VM Unit := fun errs => (.ok (), addError errs sec msg)

/-- Python truthiness of a `JVal`. -/
def pyTruthyJ : JVal → Bool
  | .jnull => false
  | .jbool b => b
  | .jnum q => !(q == 0)
  | .jstr s => !(s == "")
  | .jarr xs => !xs.isEmpty
  | .jobj es => !es.isEmpty

/-- Python `v is None`. -/
def jIsNull : JVal → Bool
  | .jnull => true
  | _ => false

/-- Python `v != 0` (booleans compare as 0/1; any non-number differs from 0). -/
def pyNeZeroJ : JVal → Bool
  | .jnum q => !(q == 0)
  | .jbool b => b
  | _ => true

/-- `'0' ≤ c ≤ '9'`. -/
def isDigitCh (c : Char) : Bool := '0' ≤ c && c ≤ '9'

/-- `'A' ≤ c ≤ 'Z'`. -/
def isUpperAZ (c : Char) : Bool := 'A' ≤ c && c ≤ 'Z'

/-- `'a' ≤ c ≤ 'z'`. -/
def isLowerAZ (c : Char) : Bool := 'a' ≤ c && c ≤ 'z'

/-- numeric value of a digit string. -/
def digitsVal (cs : List Char) : Nat := cs.foldl (fun a c => a * 10 + (c.toNat - 48)) 0

/-- `Decimal(<string>)`: signed plain decimal literals, exact. -/
def pyDecimalOfStr (s : String) : Except String ℚ :=
  let cs := s.toList
  let signed : ℚ × List Char :=
    match cs with
    | '-' :: rest => (-1, rest)
    | '+' :: rest => (1, rest)
    | _ => (1, cs)
  let intPart := signed.2.takeWhile isDigitCh
  let rest := signed.2.dropWhile isDigitCh
  match rest with
  | [] =>
    if intPart.isEmpty then .error "InvalidOperation"
    else .ok (signed.1 * (digitsVal intPart : ℚ))
  | '.' :: frac =>
    if frac.all isDigitCh && !(intPart.isEmpty && frac.isEmpty) then
      .ok (signed.1 * ((digitsVal intPart : ℚ) + (digitsVal frac : ℚ) / ((10 : ℚ) ^ frac.length)))
    else .error "InvalidOperation"
  | _ => .error "InvalidOperation"

/-- `Decimal(str(v))`: numbers pass through exactly; numeric strings are
parsed; everything else (booleans render as `True`/`False`, `None`, containers)
fails. -/
def pyDecimalJ (v : JVal) : Except String ℚ :=
  match v with
  | .jnum q => .ok q
  | .jstr s => pyDecimalOfStr s
  | _ => .error "InvalidOperation"

/-- rendering of a value in an f-string: agrees with `str(Decimal(str(v)))` on
integral values. -/
def ratStr (q : ℚ) : String :=
  if q.den == 1 then toString q.num else toString q.num ++ "/" ++ toString q.den

/-- rendering of a raw value in an f-string (message interpolation; container
reprs are not reproduced — no claim reaches them). -/
def pyStrJ : JVal → String
  | .jnull => "None"
  | .jbool b => if b then "True" else "False"
  | .jnum q => ratStr q
  | .jstr s => s
  | .jarr _ => "<list>"
  | .jobj _ => "<dict>"

/-- first regex pass of `_convert_to_snake_case`:
`re.sub('(.)([A-Z][a-z]+)', r'\1_\2', s)` (`fuel` ≥ length of the input). -/
def snakeSub1 : Nat → List Char → List Char
  | 0, l => l
  | _ + 1, [] => []
  | fuel + 1, c1 :: rest =>
    match rest with
    | c2 :: c3 :: rest3 =>
      if isUpperAZ c2 && isLowerAZ c3 then
        let low := rest3.takeWhile isLowerAZ
        let rem := rest3.dropWhile isLowerAZ
        c1 :: '_' :: c2 :: c3 :: (low ++ snakeSub1 fuel rem)
      else c1 :: snakeSub1 fuel rest
    | _ => c1 :: snakeSub1 fuel rest

/-- second regex pass: `re.sub('([a-z0-9])([A-Z])', r'\1_\2', s)`. -/
def snakeSub2 : Nat → List Char → List Char
  | 0, l => l
  | _ + 1, [] => []
  | _ + 1, [c] => [c]
  | fuel + 1, c1 :: c2 :: rest =>
    if (isLowerAZ c1 || isDigitCh c1) && isUpperAZ c2 then c1 :: '_' :: c2 :: snakeSub2 fuel rest
    else c1 :: snakeSub2 fuel (c2 :: rest)

/-- `_convert_to_snake_case` (validators.py lines 580-585). -/
def convertToSnakeCase (s : String) : String :=
  let l1 := snakeSub1 s.toList.length s.toList
  pyLower (String.mk (snakeSub2 l1.length l1))

/-- `_validate_non_empty` (lines 594-598). -/
def vNonEmpty (v : JVal) : Except String (Option String) :=
  .ok (if pyTruthyJ v then none else some "Value cannot be empty")

/-- `^\d{8}[A-Z]$` (business UEN). -/
def uenBusiness (cs : List Char) : Bool :=
  cs.length == 9 && (cs.take 8).all isDigitCh && (cs.drop 8).all isUpperAZ

/-- `^(19|20)\d{2}\d{5}[A-Z]$` (local company UEN). -/
def uenLocal (cs : List Char) : Bool :=
  cs.length == 10 &&
  (match cs with
   | a :: b :: _ => (a == '1' && b == '9') || (a == '2' && b == '0')
   | _ => false) &&
  ((cs.drop 2).take 7).all isDigitCh && (cs.drop 9).all isUpperAZ

/-- `^[TSR]\d{2}[A-Z]{2}\d{4}[A-Z]$` (other ACRA entity UEN). -/
def uenOther (cs : List Char) : Bool :=
  cs.length == 10 &&
  (match cs with
   | a :: _ => a == 'T' || a == 'S' || a == 'R'
   | _ => false) &&
  ((cs.drop 1).take 2).all isDigitCh && ((cs.drop 3).take 2).all isUpperAZ &&
  ((cs.drop 5).take 4).all isDigitCh && (cs.drop 9).all isUpperAZ

/-- `_validate_uen` (lines 600-619): a falsy value is "required"; `re.match` on
a non-string raises `TypeError`. -/
def vUEN (v : JVal) : Except String (Option String) :=
  if !pyTruthyJ v then .ok (some "UEN is required")
  else match v with
    | .jstr s =>
      let cs := s.toList
      if uenBusiness cs || uenLocal cs || uenOther cs then .ok none
      else .ok (some "Invalid UEN format")
    | _ => .error "expected string or bytes-like object"

/-- `^\d{4}-\d{2}-\d{2}$`. -/
def dateShape (cs : List Char) : Bool :=
  cs.length == 10 && (cs.take 4).all isDigitCh &&
  ((cs.drop 4).take 1).all (· == '-') && ((cs.drop 5).take 2).all isDigitCh &&
  ((cs.drop 7).take 1).all (· == '-') && ((cs.drop 8).take 2).all isDigitCh

/-- `_validate_date` (lines 621-630). -/
def vDate (v : JVal) : Except String (Option String) :=
  if !pyTruthyJ v then .ok (some "Date is required")
  else match v with
    | .jstr s => if dateShape s.toList then .ok none else .ok (some "Invalid date format (should be YYYY-MM-DD)")
    | _ => .error "expected string or bytes-like object"

/-- `_validate_filing_type` (lines 632-643): `strip().title()` then membership
in `{'Full', 'Partial'}`. -/
def vFilingType (v : JVal) : Except String (Option String) :=
  if !pyTruthyJ v then .ok (some "Filing type is required")
  else match v with
    | .jstr s =>
      let n := pyTitle (pyStrip s)
      if n == "Full" || n == "Partial" then .ok none
      else .ok (some "Invalid filing type (should be one of: Full, Partial)")
    | _ => .error "object has no attribute strip"

/-- `_validate_statement_type` (lines 645-656). -/
def vStatementType (v : JVal) : Except String (Option String) :=
  if !pyTruthyJ v then .ok (some "Statement type is required")
  else match v with
    | .jstr s =>
      let n := pyTitle (pyStrip s)
      if n == "Company" || n == "Consolidated" then .ok none
      else .ok (some "Invalid statement type (should be one of: Company, Consolidated)")
    | _ => .error "object has no attribute strip"

/-- `_validate_required_sections` (lines 167-200); the required names are
iterated in the source-literal order of the set display. -/
def validateRequiredSections (data : List (String × JVal)) : VM Unit :=
  let alternatives : String → List String := fun s =>
    if s == "FilingInformation" then ["FilingInformation", "filing_information"]
    else if s == "StatementOfFinancialPosition" then ["StatementOfFinancialPosition", "statement_of_financial_position"]
    else ["IncomeStatement", "income_statement"]
  let required := ["FilingInformation", "StatementOfFinancialPosition", "IncomeStatement"]
  let missing := required.filter (fun r => !((alternatives r).any (fun alt => hasKey data alt)))
  if missing.isEmpty then pure ()
  else vmErr "structure" ("Missing required section(s): " ++ String.intercalate ", " missing)

/-- one field check of `_validate_filing_information` (lines 226-243). -/
def checkFilingField (filingInfo : JVal) (expected : String) (names : List String)
    (validator : JVal → Except String (Option String)) : VM Unit := do
  let found ← vmLift (firstKeyIn names filingInfo)
  match found with
  | none => vmErr "FilingInformation" ("Missing required field: " ++ expected)
  | some name => do
    let v ← vmLift (pyGet filingInfo name)
    let res ← vmLift (validator v)
    match res with
    | some msg => vmErr "FilingInformation" (expected ++ ": " ++ msg)
    | none => pure ()

/-- `_validate_filing_information` (lines 202-243): reads the section under the
PascalCase key only, but tries both field-name variants inside it. -/
def validateFilingInformation (data : List (String × JVal)) : VM Unit := do
  let filingInfo := (alookup data "FilingInformation").getD (.jobj [])
  checkFilingField filingInfo "company_name" ["company_name", "NameOfCompany"] vNonEmpty
  checkFilingField filingInfo "unique_entity_number" ["unique_entity_number", "UniqueEntityNumber"] vUEN
  checkFilingField filingInfo "current_period_start" ["current_period_start", "CurrentPeriodStartDate"] vDate
  checkFilingField filingInfo "current_period_end" ["current_period_end", "CurrentPeriodEndDate"] vDate
  checkFilingField filingInfo "xbrl_filing_type" ["xbrl_filing_type", "TypeOfXBRLFiling"] vFilingType
  checkFilingField filingInfo "financial_statement_type"
    ["financial_statement_type", "NatureOfFinancialStatementsCompanyLevelOrConsolidated"] vStatementType

/-- the rounding-tolerance block (lines 292-307; repeated verbatim at lines
452-467 and 694-709): `Thousands → 1`, `Millions → 0.1·1000`,
`Billions → 0.1·1000000`, default `0.1`. -/
def roundingToleranceFrom (data : List (String × JVal)) : Except String ℚ := do
  let fik ← firstKeyIn ["FilingInformation", "filing_information"] (.jobj data)
  match fik with
  | none => pure (1/10)
  | some k => do
    let fi ← pyGetD (.jobj data) k (.jobj [])
    let rf ← firstKeyIn ["LevelOfRoundingUsedInFinancialStatements",
                         "level_of_rounding_used_in_financial_statements"] fi
    match rf with
    | none => pure (1/10)
    | some rk => do
      let rounding ← pyGet fi rk
      pure (if jEqStr rounding "Thousands" then 1
            else if jEqStr rounding "Millions" then (1/10) * 1000
            else if jEqStr rounding "Billions" then (1/10) * 1000000
            else 1/10)

/-- read a sub-section total (the `next(...)`/`is not None`/`Decimal` pattern
of lines 258-263 etc.): `0` when the section, the key or the value is missing
or `None`. -/
def readTotal (sec : JVal) (keys : List String) : Except String ℚ := do
  let tk ← firstKeyIn keys sec
  match tk with
  | none => pure 0
  | some k => do
    let v ← pyGet sec k
    if jIsNull v then pure 0 else pyDecimalJ v

/-- read a nested sub-section total: locate the sub-section under `sectionKeys`
inside `fp`, then its total under `totalKeys` (lines 254-281). -/
def readNestedTotal (fp : JVal) (sectionKeys totalKeys : List String) : Except String ℚ := do
  let sk ← firstKeyIn sectionKeys fp
  match sk with
  | none => pure 0
  | some k => do
    let sec ← pyGetD fp k (.jobj [])
    readTotal sec totalKeys

/-- `_validate_financial_position` (lines 245-330). -/
def validateFinancialPosition (data : List (String × JVal)) : VM Unit := do
  let sfpk ← vmLift (firstKeyIn ["StatementOfFinancialPosition", "statement_of_financial_position"] (.jobj data))
  match sfpk with
  | none => pure ()
  | some sk => do
    let fp ← vmLift (pyGetD (.jobj data) sk (.jobj []))
    let tca ← vmLift (readNestedTotal fp ["CurrentAssets", "current_assets"]
      ["CurrentAssets", "current_assets", "total_current_assets"])
    let tnca ← vmLift (readNestedTotal fp ["NonCurrentAssets", "non_current_assets", "noncurrent_assets"]
      ["NonCurrentAssets", "non_current_assets", "noncurrent_assets", "total_noncurrent_assets", "total_non_current_assets"])
    let totalAssets ← vmLift (readTotal fp ["Assets", "assets", "total_assets"])
    let tol ← vmLift (roundingToleranceFrom data)
    (if |tca + tnca - totalAssets| > tol then
      vmErr "StatementOfFinancialPosition"
        ("Total assets (" ++ ratStr totalAssets ++ ") does not equal the sum of current assets (" ++
         ratStr tca ++ ") and non-current assets (" ++ ratStr tnca ++ ")")
     else pure ())
    let totalLiabilities ← vmLift (readTotal fp ["Liabilities", "liabilities", "total_liabilities"])
    let totalEquity ← vmLift (readNestedTotal fp ["Equity", "equity"] ["Equity", "equity", "total_equity"])
    if |(totalLiabilities + totalEquity) - totalAssets| > tol then
      vmErr "StatementOfFinancialPosition"
        ("Assets (" ++ ratStr totalAssets ++ ") must equal Liabilities (" ++ ratStr totalLiabilities ++
         ") plus Equity (" ++ ratStr totalEquity ++ ")")
    else pure ()

/-- `_validate_income_statement` (lines 332-357): reads the section under the
snake_case key only. -/
def validateIncomeStatement (data : List (String × JVal)) : VM Unit := do
  let incomeStatement := (alookup data "income_statement").getD (.jobj [])
  let hasProfit ← do
    let b ← vmLift (pyHasKeyJ "profit_loss" incomeStatement)
    if b then do
      let v ← vmLift (pySubscriptJ incomeStatement "profit_loss")
      pure (pyNeZeroJ v)
    else pure false
  let hasRevenue ← do
    let b ← vmLift (pyHasKeyJ "revenue" incomeStatement)
    if b then do
      let v ← vmLift (pySubscriptJ incomeStatement "revenue")
      pure (pyNeZeroJ v)
    else pure false
  (if hasProfit && !hasRevenue then
    vmErr "income_statement" "Revenue should be reported when profit exists"
   else pure ())
  let b ← vmLift (pyHasKeyJ "profit_loss" incomeStatement)
  if b then do
    let rp ← vmLift (do pyDecimalJ (← pyGetD incomeStatement "profit_loss" (.jnum 0)))
    let rr ← vmLift (do pyDecimalJ (← pyGetD incomeStatement "revenue" (.jnum 0)))
    let re ← vmLift (do pyDecimalJ (← pyGetD incomeStatement "total_expenses" (.jnum 0)))
    let hasOther ← vmLift (pyHasKeyJ "other_income" incomeStatement)
    let calcProfit ←
      if hasOther then do
        let oi ← vmLift (do pyDecimalJ (← pyGetD incomeStatement "other_income" (.jnum 0)))
        pure (rr - re + oi)
      else
        pure (rr - re)
    if |calcProfit - rp| > 1/10 then
      vmErr "income_statement" ("Profit/Loss (" ++ ratStr rp ++ ") does not match calculation from revenue and expenses")
    else pure ()
  else pure ()

/-- `_validate_cash_flows` (lines 359-388): reads the section under the
snake_case key only. -/
def validateCashFlows (data : List (String × JVal)) : VM Unit := do
  let cashFlows := (alookup data "statement_of_cash_flows").getD (.jobj [])
  let opening ← vmLift (do pyDecimalJ (← pyGetD cashFlows "cash_and_cash_equivalents_beginning_period" (.jnum 0)))
  let netIncrease ← vmLift (do pyDecimalJ (← pyGetD cashFlows "net_increase_decrease_in_cash_and_cash_equivalents" (.jnum 0)))
  let closing ← vmLift (do pyDecimalJ (← pyGetD cashFlows "cash_and_cash_equivalents_end_period" (.jnum 0)))
  (if |(opening + netIncrease) - closing| > 1/10 then
    vmErr "statement_of_cash_flows"
      ("Closing cash (" ++ ratStr closing ++ ") does not equal opening cash (" ++ ratStr opening ++
       ") plus net change (" ++ ratStr netIncrease ++ ")")
   else pure ())
  let operating ← vmLift (do pyDecimalJ (← pyGetD cashFlows "net_cash_flows_from_used_in_operating_activities" (.jnum 0)))
  let investing ← vmLift (do pyDecimalJ (← pyGetD cashFlows "net_cash_flows_from_used_in_investing_activities" (.jnum 0)))
  let financing ← vmLift (do pyDecimalJ (← pyGetD cashFlows "net_cash_flows_from_used_in_financing_activities" (.jnum 0)))
  let calcNet := operating + investing + financing
  if |calcNet - netIncrease| > 1/2 then do
    let exchange ← vmLift (do pyDecimalJ (← pyGetD cashFlows "effect_of_exchange_rate_changes_on_cash_and_cash_equivalents" (.jnum 0)))
    if |(calcNet + exchange) - netIncrease| > 1/10 then
      vmErr "statement_of_cash_flows"
        ("Net increase in cash (" ++ ratStr netIncrease ++ ") does not equal sum of operating (" ++
         ratStr operating ++ "), investing (" ++ ratStr investing ++ "), and financing (" ++
         ratStr financing ++ ") activities")
    else pure ()
  else pure ()

/-- `_validate_changes_in_equity` (lines 390-416): reads the section under the
snake_case key only. -/
def validateChangesInEquity (data : List (String × JVal)) : VM Unit := do
  let cie := (alookup data "statement_of_changes_in_equity").getD (.jobj [])
  let opening ← vmLift (do pyDecimalJ (← pyGetD cie "total_equity_beginning_period" (.jnum 0)))
  let changes ← vmLift (do pyDecimalJ (← pyGetD cie "total_changes_in_equity" (.jnum 0)))
  let closing ← vmLift (do pyDecimalJ (← pyGetD cie "total_equity_end_period" (.jnum 0)))
  (if |(opening + changes) - closing| > 1/10 then
    vmErr "statement_of_changes_in_equity"
      ("Closing equity (" ++ ratStr closing ++ ") does not equal opening equity (" ++ ratStr opening ++
       ") plus total changes (" ++ ratStr changes ++ ")")
   else pure ())
  let b1 ← vmLift (pyHasKeyJ "profit_loss_attributable_to_owners" cie)
  if b1 && hasKey data "income_statement" then do
    let equityProfit ← vmLift (do pyDecimalJ (← pyGetD cie "profit_loss_attributable_to_owners" (.jnum 0)))
    let isv ← vmLift (pySubscriptJ (.jobj data) "income_statement")
    let incomeProfit ← vmLift (do pyDecimalJ (← pyGetD isv "profit_loss" (.jnum 0)))
    if !(equityProfit == 0) && !(incomeProfit == 0) then
      if |equityProfit - incomeProfit| > 1/10 then
        vmErr "statement_of_changes_in_equity"
          ("Profit/loss in statement of changes in equity (" ++ ratStr equityProfit ++
           ") does not match profit/loss in income statement (" ++ ratStr incomeProfit ++ ")")
      else pure ()
    else pure ()
  else pure ()

/-- the receivables consistency block of `_validate_notes` (lines 428-472),
executed only when the financial-position section exists. -/
def validateNotesReceivables (data : List (String × JVal)) (notes fp : JVal) : VM Unit := do
  let rnk ← vmLift (firstKeyIn ["TradeAndOtherReceivables", "trade_and_other_receivables"] notes)
  match rnk with
  | none => pure ()
  | some rk => do
    let receivablesNotes ← vmLift (pyGetD notes rk (.jobj []))
    let ntk ← vmLift (firstKeyIn ["TradeAndOtherReceivables", "trade_and_other_receivables"] receivablesNotes)
    match ntk with
    | none => pure ()
    | some nk => do
      let nv ← vmLift (pyGet receivablesNotes nk)
      if jIsNull nv then pure ()
      else do
        let notesTotal ← vmLift (pyDecimalJ nv)
        let cak ← vmLift (firstKeyIn ["CurrentAssets", "current_assets"] fp)
        match cak with
        | none => pure ()
        | some ck => do
          let ca ← vmLift (pyGetD fp ck (.jobj []))
          let rsk ← vmLift (firstKeyIn ["TradeAndOtherReceivablesCurrent",
            "trade_and_other_receivables_current", "trade_and_other_receivables"] ca)
          match rsk with
          | none => pure ()
          | some rsk' => do
            let sv ← vmLift (pyGet ca rsk')
            if jIsNull sv then pure ()
            else do
              let statementTotal ← vmLift (pyDecimalJ sv)
              let tol ← vmLift (roundingToleranceFrom data)
              if |notesTotal - statementTotal| > tol then
                vmErr "Notes"
                  ("Trade and other receivables in notes (" ++ ratStr notesTotal ++
                   ") does not match the value in statement of financial position (" ++
                   ratStr statementTotal ++ ")")
              else pure ()

/-- the payables null-guard block of `_validate_notes` (lines 474-499); it
reads the local variable `financial_position`, which is only bound when the
financial-position section key was found. -/
def validateNotesPayables (fp : JVal) : VM Unit := do
  let clk ← vmLift (firstKeyIn ["CurrentLiabilities", "current_liabilities"] fp)
  (match clk with
   | none => pure ()
   | some ck => do
     let cl ← vmLift (pyGetD fp ck (.jobj []))
     let pk ← vmLift (firstKeyIn ["TradeAndOtherPayablesCurrent", "trade_and_other_payables_current"] cl)
     match pk with
     | none => pure ()
     | some pk' => do
       let v ← vmLift (pyGet cl pk')
       if jIsNull v then
         vmErr "StatementOfFinancialPosition.CurrentLiabilities" "TradeAndOtherPayablesCurrent should not be null"
       else pure ())
  let nclk ← vmLift (firstKeyIn ["NonCurrentLiabilities", "non_current_liabilities"] fp)
  match nclk with
  | none => pure ()
  | some nk => do
    let ncl ← vmLift (pyGetD fp nk (.jobj []))
    let pk ← vmLift (firstKeyIn ["TradeAndOtherPayablesNoncurrent", "trade_and_other_payables_noncurrent"] ncl)
    match pk with
    | none => pure ()
    | some pk' => do
      let v ← vmLift (pyGet ncl pk')
      if jIsNull v then
        vmErr "StatementOfFinancialPosition.NonCurrentLiabilities" "TradeAndOtherPayablesNoncurrent should not be null"
      else pure ()

/-- `_validate_notes` (lines 418-499).  When the financial-position section is
absent the payables block still reads the unbound local `financial_position`,
which raises `NameError` in the source; the embedding raises the corresponding
exception text. -/
def validateNotes (data : List (String × JVal)) : VM Unit := do
  let nk ← vmLift (firstKeyIn ["Notes", "notes"] (.jobj data))
  match nk with
  | none => pure ()
  | some k => do
    let notes ← vmLift (pyGetD (.jobj data) k (.jobj []))
    let sfpk ← vmLift (firstKeyIn ["StatementOfFinancialPosition", "statement_of_financial_position"] (.jobj data))
    match sfpk with
    | none => vmLift (.error "name 'financial_position' is not defined")
    | some sk => do
      let fp ← vmLift (pyGetD (.jobj data) sk (.jobj []))
      validateNotesReceivables data notes fp
      validateNotesPayables fp

/-- one required-field check of `_validate_directors_statement` (lines
515-521): missing under both name variants, or present with a null value. -/
def checkDirectorsField (ds : JVal) (field : String) : VM Unit := do
  let snake := convertToSnakeCase field
  let b1 ← vmLift (pyHasKeyJ field ds)
  let b2 ← vmLift (pyHasKeyJ snake ds)
  if !b1 && !b2 then vmErr "DirectorsStatement" ("Missing required field: " ++ field)
  else do
    let c1 ← (if b1 then do
        let v ← vmLift (pySubscriptJ ds field)
        pure (jIsNull v)
      else pure false)
    let c2 ← (if c1 then pure false
      else if b2 then do
        let v ← vmLift (pySubscriptJ ds snake)
        pure (jIsNull v)
      else pure false)
    if c1 || c2 then vmErr "DirectorsStatement" ("Field " ++ field ++ " must not be null")
    else pure ()

/-- `_validate_directors_statement` (lines 501-521). -/
def validateDirectorsStatement (data : List (String × JVal)) : VM Unit := do
  let dsk ← vmLift (firstKeyIn ["DirectorsStatement", "directors_statement"] (.jobj data))
  match dsk with
  | none => pure ()
  | some k => do
    let ds ← vmLift (pyGetD (.jobj data) k (.jobj []))
    checkDirectorsField ds "WhetherInDirectorsOpinionFinancialStatementsAreDrawnUpSoAsToExhibitATrueAndFairView"
    checkDirectorsField ds "WhetherThereAreReasonableGroundsToBelieveThatCompanyWillBeAbleToPayItsDebtsAsAndWhenTheyFallDueAtDateOfStatement"

/-- `_validate_audit_report` (lines 523-544). -/
def validateAuditReport (data : List (String × JVal)) : VM Unit := do
  let ark ← vmLift (firstKeyIn ["AuditReport", "audit_report"] (.jobj data))
  match ark with
  | none => pure ()
  | some k => do
    let ar ← vmLift (pyGetD (.jobj data) k (.jobj []))
    let opinionField := "TypeOfAuditOpinionInIndependentAuditorsReport"
    let snakeOpinion := convertToSnakeCase opinionField
    let b1 ← vmLift (pyHasKeyJ opinionField ar)
    let opinion ← (if b1 then vmLift (pySubscriptJ ar opinionField)
      else do
        let b2 ← vmLift (pyHasKeyJ snakeOpinion ar)
        if b2 then vmLift (pySubscriptJ ar snakeOpinion) else pure .jnull)
    if pyTruthyJ opinion then
      if jEqStr opinion "Unqualified" || jEqStr opinion "Qualified" ||
         jEqStr opinion "Adverse" || jEqStr opinion "Disclaimer" then pure ()
      else
        vmErr "AuditReport" ("Invalid audit opinion: " ++ pyStrJ opinion ++
          ". Must be one of Unqualified, Qualified, Adverse, Disclaimer")
    else pure ()

/-- `_validate_data_formatting` (lines 546-578). -/
def validateDataFormatting (data : List (String × JVal)) : VM Unit := do
  let fik ← vmLift (firstKeyIn ["FilingInformation", "filing_information"] (.jobj data))
  match fik with
  | none => pure ()
  | some k => do
    let fi ← vmLift (pyGetD (.jobj data) k (.jobj []))
    let currencyField := "DescriptionOfPresentationCurrency"
    let b1 ← vmLift (pyHasKeyJ currencyField fi)
    let currency ← (if b1 then vmLift (pySubscriptJ fi currencyField)
      else do
        let b2 ← vmLift (pyHasKeyJ (convertToSnakeCase currencyField) fi)
        if b2 then vmLift (pySubscriptJ fi (convertToSnakeCase currencyField)) else pure .jnull)
    (if pyTruthyJ currency &&
        !(["SGD", "USD", "EUR", "GBP", "JPY", "CNY", "HKD", "AUD", "INR", "MYR"].any (jEqStr currency)) then
      vmErr "FilingInformation" ("Invalid presentation currency: " ++ pyStrJ currency)
     else pure ())
    let roundingField := "LevelOfRoundingUsedInFinancialStatements"
    let b3 ← vmLift (pyHasKeyJ roundingField fi)
    let rounding ← (if b3 then vmLift (pySubscriptJ fi roundingField)
      else do
        let b4 ← vmLift (pyHasKeyJ (convertToSnakeCase roundingField) fi)
        if b4 then vmLift (pySubscriptJ fi (convertToSnakeCase roundingField)) else pure .jnull)
    if pyTruthyJ rounding &&
        !(["Units", "Thousands", "Millions", "Billions"].any (jEqStr rounding)) then
      vmErr "FilingInformation" ("Invalid rounding level: " ++ pyStrJ rounding ++
        ". Must be one of Units, Thousands, Millions, Billions")
    else pure ()

/-- the equity total of the cross-statement check (lines 724-732), with its
extra `equity_section.get('Equity')` fallback. -/
def readEquityTotalCross (fp : JVal) : Except String ℚ := do
  let ek ← firstKeyIn ["Equity", "equity"] fp
  match ek with
  | none => pure 0
  | some k => do
    let eqSec ← pyGetD fp k (.jobj [])
    let etk ← firstKeyIn ["Equity", "equity", "total_equity"] eqSec
    match etk with
    | some tk => do
      let v ← pyGet eqSec tk
      if !(jIsNull v) then pyDecimalJ v
      else do
        let v2 ← pyGet eqSec "Equity"
        if jIsNull v2 then pure 0 else pyDecimalJ v2
    | none => do
      let v2 ← pyGet eqSec "Equity"
      if jIsNull v2 then pure 0 else pyDecimalJ v2

/-- the body of `_validate_cross_statement_consistency` (lines 658-737),
before its own exception handler. -/
def crossStatementInner (data : List (String × JVal)) : VM Unit := do
  let sfpk ← vmLift (firstKeyIn ["StatementOfFinancialPosition", "statement_of_financial_position"] (.jobj data))
  match sfpk with
  | none => pure ()
  | some sk => do
    let fp ← vmLift (pyGetD (.jobj data) sk (.jobj []))
    let totalAssets ← vmLift (readTotal fp ["Assets", "assets", "total_assets"])
    let currentAssets ← vmLift (readNestedTotal fp ["CurrentAssets", "current_assets"]
      ["CurrentAssets", "current_assets", "total_current_assets"])
    let nonCurrentAssets ← vmLift (readNestedTotal fp
      ["NonCurrentAssets", "NoncurrentAssets", "non_current_assets", "noncurrent_assets"]
      ["NonCurrentAssets", "NoncurrentAssets", "non_current_assets", "noncurrent_assets",
       "total_non_current_assets", "total_noncurrent_assets"])
    let tol ← vmLift (roundingToleranceFrom data)
    (if |(currentAssets + nonCurrentAssets) - totalAssets| > tol then
      vmErr "StatementOfFinancialPosition"
        ("Total assets (" ++ ratStr totalAssets ++ ") does not equal the sum of current assets (" ++
         ratStr currentAssets ++ ") and non-current assets (" ++ ratStr nonCurrentAssets ++ ")")
     else pure ())
    let totalLiabilities ← vmLift (readTotal fp ["Liabilities", "liabilities", "total_liabilities"])
    let totalEquity ← vmLift (readEquityTotalCross fp)
    if |(totalLiabilities + totalEquity) - totalAssets| > tol then
      vmErr "StatementOfFinancialPosition"
        ("Assets (" ++ ratStr totalAssets ++ ") must equal Liabilities (" ++ ratStr totalLiabilities ++
         ") plus Equity (" ++ ratStr totalEquity ++ ")")
    else pure ()

/-- `_validate_cross_statement_consistency` (lines 658-740): its own handler
converts an exception into a `general` error and resumes. -/
def validateCrossStatement (data : List (String × JVal)) : VM Unit := fun errs =>
  match crossStatementInner data errs with
  | (.error e, errs') =>
    (.ok (), addError errs' "general" ("Error validating cross statement consistency: " ++ e))
  | r => r

/-- `validate` (lines 103-165) without the final error-map processing: the
sequential checks of the `try` block, each guarded by its section-presence
test. -/
def validatePreNotes (data : List (String × JVal)) : VM Unit := do
  validateRequiredSections data
  (if hasKey data "FilingInformation" || hasKey data "filing_information" then
    validateFilingInformation data else pure ())
  (if hasKey data "StatementOfFinancialPosition" || hasKey data "statement_of_financial_position" then
    validateFinancialPosition data else pure ())
  (if hasKey data "IncomeStatement" || hasKey data "income_statement" then
    validateIncomeStatement data else pure ())
  (if hasKey data "StatementOfCashFlows" || hasKey data "statement_of_cash_flows" then
    validateCashFlows data else pure ())
  (if hasKey data "StatementOfChangesInEquity" || hasKey data "statement_of_changes_in_equity" then
    validateChangesInEquity data else pure ())

/-- the checks that follow `_validate_notes` in `validate`. -/
def validatePostNotes (data : List (String × JVal)) : VM Unit := do
  (if hasKey data "DirectorsStatement" || hasKey data "directors_statement" then
    validateDirectorsStatement data else pure ())
  (if hasKey data "AuditReport" || hasKey data "audit_report" then
    validateAuditReport data else pure ())
  validateCrossStatement data
  validateDataFormatting data

/-- the whole `try` block of `validate`. -/
def validateBody (data : List (String × JVal)) : VM Unit := do
  validatePreNotes data
  (if hasKey data "Notes" || hasKey data "notes" then validateNotes data else pure ())
  validatePostNotes data

/-- `ACRAXBRLValidator.validate` (lines 103-165): run all checks, convert an
escaped exception into a `general` error, and return
`(len(errors) == 0, errors)`. -/
def validate (data : List (String × JVal)) : Bool × ErrMap :=
  match validateBody data [] with
  | (.ok _, errs) => (errs.isEmpty, errs)
  | (.error e, errs) =>
    let errs' := addError errs "general" ("Validation error: " ++ e)
    (errs'.isEmpty, errs')

/-! ## Concrete documents and decidable checkers used by the verification -/

/-- decidable form of the exact-keyword property of the term matcher: every
keyword of every table entry, matched with the default `"all"` filter, scores
at least 5 and lands on a field whose keyword list contains it. -/
def c4CheckEntry (fk : String × List String) : Bool :=
  fk.2.all fun kw =>
    let r := matchWithTable encAllLit kw
    decide (5 ≤ r.match_score) &&
      ((if r.statement_type == "income_statement" then incomeTerms else positionTerms).any
        fun fk2 => fk2.1 == r.field && fk2.2.contains kw)

def c4Check : Bool := (incomeTerms ++ positionTerms).all c4CheckEntry

/-- a complete, internally consistent filing-information section. -/
def exampleFilingInfo : JVal := .jobj
  [("company_name", .jstr "Example Pte Ltd"),
   ("unique_entity_number", .jstr "201912345D"),
   ("current_period_start", .jstr "2023-01-01"),
   ("current_period_end", .jstr "2023-12-31"),
   ("xbrl_filing_type", .jstr "Full"),
   ("financial_statement_type", .jstr "Company")]

/-- the financial-position section of the spec's balance-check scenario, with
`CurrentAssets.total = 500`, `NonCurrentAssets.total = 500`,
`Liabilities = 500`, `Equity.total = 500` and a variable `Assets`. -/
def exampleSFP (assets : ℚ) : JVal := .jobj
  [("CurrentAssets", .jobj [("CurrentAssets", .jnum 500)]),
   ("NonCurrentAssets", .jobj [("NonCurrentAssets", .jnum 500)]),
   ("Assets", .jnum assets),
   ("Liabilities", .jnum 500),
   ("Equity", .jobj [("Equity", .jnum 500)])]

/-- the balance-check document of the spec's scenario. -/
def exampleDoc (assets : ℚ) : List (String × JVal) :=
  [("FilingInformation", exampleFilingInfo),
   ("StatementOfFinancialPosition", exampleSFP assets),
   ("IncomeStatement", .jobj [])]

/-- a financial-position document family with symbolic totals and a symbolic
declared rounding level `r`. -/
def famDoc (a b c l e : ℚ) (r : String) : List (String × JVal) :=
  [("FilingInformation", .jobj [("LevelOfRoundingUsedInFinancialStatements", .jstr r)]),
   ("StatementOfFinancialPosition", .jobj
     [("CurrentAssets", .jobj [("CurrentAssets", .jnum a)]),
      ("NonCurrentAssets", .jobj [("NonCurrentAssets", .jnum b)]),
      ("Assets", .jnum c),
      ("Liabilities", .jnum l),
      ("Equity", .jobj [("Equity", .jnum e)])])]

/-- the code of a character list (the fold of `strCode` starting from an
arbitrary accumulator is expressed through it below). -/
def codeL (cs : List Char) : Nat :=
  cs.foldl (fun acc c => acc * 1114113 + (c.toNat + 1)) 0

/-! # Theorems -/

/-! ## Dictionary lemmas -/

theorem alookup_upsert_self (l : List (String × α)) (k : String) (v : α) :
    alookup (upsert l k v) k = some v := by
  induction l with
  | nil => simp [upsert, alookup]
  | cons hd tl ih =>
    obtain ⟨k', v'⟩ := hd
    by_cases h : k' = k
    · simp [upsert, alookup, h]
    · simp [upsert, alookup, h, ih]

theorem alookup_upsert_ne (l : List (String × α)) (k k' : String) (v : α) (h : k' ≠ k) :
    alookup (upsert l k v) k' = alookup l k' := by
  induction l with
  | nil => simp [upsert, alookup, Ne.symm h]
  | cons hd tl ih =>
    obtain ⟨k0, v0⟩ := hd
    by_cases h0 : k0 = k
    · subst h0
      simp [upsert, alookup, Ne.symm h]
    · by_cases h1 : k0 = k'
      · subst h1
        simp [upsert, alookup, h0]
      · simp [upsert, alookup, h0, h1, ih]

theorem alookup_eraseKey_ne (l : List (String × α)) (k k' : String) (h : k' ≠ k) :
    alookup (eraseKey l k) k' = alookup l k' := by
  induction l with
  | nil => simp [eraseKey, alookup]
  | cons hd tl ih =>
    obtain ⟨k0, v0⟩ := hd
    by_cases h0 : k0 = k
    · subst h0
      simp [eraseKey, alookup, Ne.symm h, ih]
    · by_cases h1 : k0 = k'
      · subst h1
        simp [eraseKey, alookup, h0]
      · simp [eraseKey, alookup, h0, h1, ih]

theorem alookup_addError_self (errs : ErrMap) (sec msg : String) :
    (alookup (addError errs sec msg) sec).isSome := by
  induction errs with
  | nil => simp [addError, alookup]
  | cons hd tl ih =>
    obtain ⟨k0, m0⟩ := hd
    by_cases h0 : k0 = sec
    · simp [addError, alookup, h0]
    · simp [addError, alookup, h0, ih]

theorem addError_ne_nil (errs : ErrMap) (sec msg : String) :
    addError errs sec msg ≠ [] := by
  cases errs with
  | nil => simp [addError]
  | cons hd tl =>
    obtain ⟨k0, m0⟩ := hd
    by_cases h0 : k0 = sec <;> simp [addError, h0]

/-! ## Injectivity of the string code
`strCode` writes a string as base-1114113 digits `codepoint + 1 ∈ [1, 1114112]`,
so it is injective; hence `pyStrEq` is exactly string equality. -/

theorem codeL_foldl (cs : List Char) (acc : Nat) :
    cs.foldl (fun a c => a * 1114113 + (c.toNat + 1)) acc =
      acc * 1114113 ^ cs.length + codeL cs := by
  induction cs generalizing acc with
  | nil => simp [codeL]
  | cons c cs ih =>
    have h1 := ih (acc * 1114113 + (c.toNat + 1))
    have h2 := ih (c.toNat + 1)
    simp only [List.foldl_cons] at *
    have h3 : codeL (c :: cs) = (c.toNat + 1) * 1114113 ^ cs.length + codeL cs := by
      simp only [codeL, List.foldl_cons]
      simpa using h2
    rw [h1, h3, List.length_cons]
    ring

theorem codeL_cons (c : Char) (cs : List Char) :
    codeL (c :: cs) = (c.toNat + 1) * 1114113 ^ cs.length + codeL cs := by
  simp only [codeL, List.foldl_cons]
  simpa using codeL_foldl cs (c.toNat + 1)

theorem charToNat_lt (c : Char) : c.toNat < 1114112 := by
  have h := c.valid
  rcases h with h | ⟨_, h⟩
  · exact Nat.lt_trans h (by norm_num)
  · exact h

theorem codeL_lt (cs : List Char) : codeL cs < 1114113 ^ cs.length := by
  induction cs with
  | nil => simp [codeL]
  | cons c cs ih =>
    rw [codeL_cons, List.length_cons, pow_succ, mul_comm (1114113 ^ cs.length) 1114113]
    have hc : c.toNat + 1 ≤ 1114112 := charToNat_lt c
    calc (c.toNat + 1) * 1114113 ^ cs.length + codeL cs
        < (c.toNat + 1) * 1114113 ^ cs.length + 1114113 ^ cs.length := by omega
      _ = (c.toNat + 2) * 1114113 ^ cs.length := by ring
      _ ≤ 1114113 * 1114113 ^ cs.length := by
          exact Nat.mul_le_mul_right _ (by omega)

theorem codeL_ge (c : Char) (cs : List Char) :
    1114113 ^ cs.length ≤ codeL (c :: cs) := by
  rw [codeL_cons]
  have : 1 * 1114113 ^ cs.length ≤ (c.toNat + 1) * 1114113 ^ cs.length :=
    Nat.mul_le_mul_right _ (by omega)
  omega

theorem codeL_length_eq {xs ys : List Char} (h : codeL xs = codeL ys) :
    xs.length = ys.length := by
  rcases Nat.lt_trichotomy xs.length ys.length with hlt | heq | hgt
  · exfalso
    cases ys with
    | nil => simp at hlt
    | cons y ys =>
      have h1 : codeL xs < 1114113 ^ xs.length := codeL_lt xs
      have h2 : 1114113 ^ ys.length ≤ codeL (y :: ys) := codeL_ge y ys
      have h3 : 1114113 ^ xs.length ≤ 1114113 ^ ys.length :=
        Nat.pow_le_pow_right (by norm_num) (by simp at hlt ⊢; omega)
      omega
  · exact heq
  · exfalso
    cases xs with
    | nil => simp at hgt
    | cons x xs =>
      have h1 : codeL ys < 1114113 ^ ys.length := codeL_lt ys
      have h2 : 1114113 ^ xs.length ≤ codeL (x :: xs) := codeL_ge x xs
      have h3 : 1114113 ^ ys.length ≤ 1114113 ^ xs.length :=
        Nat.pow_le_pow_right (by norm_num) (by simp at hgt ⊢; omega)
      omega

theorem mul_add_cancel_of_lt {a b r1 r2 M : Nat} (hM : 0 < M) (h1 : r1 < M) (h2 : r2 < M)
    (h : a * M + r1 = b * M + r2) : a = b ∧ r1 = r2 := by
  have ha : (a * M + r1) / M = a := by
    rw [mul_comm, Nat.mul_add_div hM, Nat.div_eq_of_lt h1]
    omega
  have hb : (b * M + r2) / M = b := by
    rw [mul_comm, Nat.mul_add_div hM, Nat.div_eq_of_lt h2]
    omega

  have hab : a = b := by rw [← ha, ← hb, h]
  refine ⟨hab, ?_⟩
  subst hab
  omega

theorem codeL_inj : ∀ xs ys : List Char, codeL xs = codeL ys → xs = ys := by
  intro xs
  induction xs with
  | nil =>
    intro ys h
    cases ys with
    | nil => rfl
    | cons y ys =>
      exfalso
      have h2 : 1114113 ^ ys.length ≤ codeL (y :: ys) := codeL_ge y ys
      have h3 : (0 : Nat) < 1114113 ^ ys.length := Nat.pos_pow_of_pos _ (by norm_num)
      have h4 : (0 : Nat) = codeL (y :: ys) := h
      omega
  | cons x xs ih =>
    intro ys h
    cases ys with
    | nil =>
      exfalso
      have h2 : 1114113 ^ xs.length ≤ codeL (x :: xs) := codeL_ge x xs
      have h3 : (0 : Nat) < 1114113 ^ xs.length := Nat.pos_pow_of_pos _ (by norm_num)
      have h4 : codeL (x :: xs) = (0 : Nat) := h
      omega
    | cons y ys =>
      have hlen : xs.length = ys.length := by
        have := codeL_length_eq h
        simpa using this
      rw [codeL_cons, codeL_cons, ← hlen] at h
      obtain ⟨hd, ht⟩ := mul_add_cancel_of_lt
        (Nat.pos_pow_of_pos _ (by norm_num)) (codeL_lt xs) (hlen ▸ codeL_lt ys) h
      have hx : x = y := by
        have hn : x.toNat = y.toNat := by omega
        exact Char.ext (UInt32.toNat.inj hn)
      rw [hx, ih ys ht]

theorem strCode_inj {a b : String} (h : strCode a = strCode b) : a = b := by
  have hl : a.toList = b.toList := codeL_inj _ _ h
  cases a with
  | mk da =>
    cases b with
    | mk db =>
      simp only [String.toList] at hl
      rw [hl]

theorem pyStrEq_iff (a b : String) : pyStrEq a b = true ↔ a = b := by
  constructor
  · intro h
    exact strCode_inj (by simpa [pyStrEq] using h)
  · intro h
    simp [pyStrEq, h]

theorem jEqStr_jstr_iff (s t : String) : jEqStr (.jstr s) t = true ↔ s = t := by
  simp [jEqStr, pyStrEq_iff]

/-! ## Structural extractor: result shape (claim C5) -/

theorem alookup_mem {l : List (String × α)} {k : String} {v : α}
    (h : alookup l k = some v) : (k, v) ∈ l := by
  induction l with
  | nil => simp [alookup] at h
  | cons hd tl ih =>
    obtain ⟨k0, v0⟩ := hd
    by_cases h0 : k0 = k
    · subst h0
      simp [alookup] at h
      simp [h]
    · simp [alookup, h0] at h
      simp [ih h]

theorem hasKey_false_alookup {l : List (String × α)} {k : String}
    (h : hasKey l k = false) : alookup l k = none := by
  unfold hasKey at h
  cases halo : alookup l k with
  | none => rfl
  | some v => rw [halo] at h; simp at h

theorem mem_upsert {l : List (String × α)} {k : String} {v : α} {p : String × α}
    (h : p ∈ upsert l k v) : p.1 = k ∨ p ∈ l := by
  induction l with
  | nil => simp [upsert] at h; simp [h]
  | cons hd tl ih =>
    obtain ⟨k0, v0⟩ := hd
    by_cases h0 : k0 = k
    · subst h0
      simp [upsert] at h
      rcases h with h | h
      · simp [h]
      · simp [h]
    · simp [upsert, h0] at h
      rcases h with h | h
      · simp [h]
      · rcases ih h with h' | h'
        · simp [h']
        · simp [h']

theorem except_bind_ok {x : Except String α} {f : α → Except String β} {b : β}
    (h : (x >>= f) = .ok b) : ∃ a, x = .ok a ∧ f a = .ok b := by
  cases x with
  | error e => simp [Bind.bind, Except.bind] at h
  | ok a => exact ⟨a, rfl, by simpa [Bind.bind, Except.bind] using h⟩

theorem mapFlatSection_keys {P : String → Prop} {input : List (String × JVal)}
    {trig sk : String} {mapping : List (String × String)} {acc y : List (String × JVal)}
    (h : mapFlatSection input trig sk mapping acc = .ok y)
    (hacc : ∀ p ∈ acc, P p.1) (hsk : P sk) : ∀ p ∈ y, P p.1 := by
  unfold mapFlatSection at h
  cases halo : alookup input trig with
  | none =>
    rw [halo] at h
    simp only [Except.ok.injEq] at h
    subst h
    exact hacc
  | some sec =>
    rw [halo] at h
    obtain ⟨fields, _, h2⟩ := except_bind_ok h
    simp only [pure, Except.pure, Except.ok.injEq] at h2
    subst h2
    intro p hp
    rcases List.mem_append.mp hp with hp | hp
    · exact hacc p hp
    · simp at hp
      subst hp
      exact hsk

theorem mapSubSection_keys {P : String → Prop} {parent : JVal} {trig sk : String}
    {mapping : List (String × String)} {acc y : List (String × JVal)}
    (h : mapSubSection parent trig sk mapping acc = .ok y)
    (hacc : ∀ p ∈ acc, P p.1) (hsk : P sk) : ∀ p ∈ y, P p.1 := by
  unfold mapSubSection at h
  obtain ⟨b, _, h2⟩ := except_bind_ok h
  by_cases hb : b = true
  · subst hb
    simp only [if_true] at h2
    obtain ⟨sub, _, h3⟩ := except_bind_ok h2
    obtain ⟨fields, _, h4⟩ := except_bind_ok h3
    simp only [pure, Except.pure, Except.ok.injEq] at h4
    subst h4
    intro p hp
    rcases List.mem_append.mp hp with hp | hp
    · exact hacc p hp
    · simp at hp
      subst hp
      exact hsk
  · simp only [Bool.not_eq_true] at hb
    rw [hb] at h2
    rw [if_neg (by simp)] at h2
    simp only [pure, Except.pure, Except.ok.injEq] at h2
    subst h2
    exact hacc

theorem mapFinancialPositionSection_keys {P : String → Prop} {input : List (String × JVal)}
    {acc y : List (String × JVal)}
    (h : mapFinancialPositionSection input acc = .ok y)
    (hacc : ∀ p ∈ acc, P p.1) (hsk : P "statement_of_financial_position") :
    ∀ p ∈ y, P p.1 := by
  unfold mapFinancialPositionSection at h
  cases halo : alookup input "StatementOfFinancialPosition" with
  | none =>
    rw [halo] at h
    simp only [Except.ok.injEq] at h
    subst h
    exact hacc
  | some fp =>
    rw [halo] at h
    obtain ⟨m1, _, h⟩ := except_bind_ok h
    obtain ⟨m2, _, h⟩ := except_bind_ok h
    obtain ⟨m3, _, h⟩ := except_bind_ok h
    obtain ⟨m4, _, h⟩ := except_bind_ok h
    obtain ⟨m5, _, h⟩ := except_bind_ok h
    obtain ⟨m6, _, h⟩ := except_bind_ok h
    obtain ⟨m7, _, h⟩ := except_bind_ok h
    simp only [pure, Except.pure, Except.ok.injEq] at h
    subst h
    intro p hp
    rcases List.mem_append.mp hp with hp | hp
    · exact hacc p hp
    · simp at hp
      subst hp
      exact hsk

theorem mapNotesSection_keys {P : String → Prop} {input : List (String × JVal)}
    {acc y : List (String × JVal)}
    (h : mapNotesSection input acc = .ok y)
    (hacc : ∀ p ∈ acc, P p.1) (hsk : P "notes") : ∀ p ∈ y, P p.1 := by
  unfold mapNotesSection at h
  cases halo : alookup input "Notes" with
  | none =>
    rw [halo] at h
    simp only [Except.ok.injEq] at h
    subst h
    exact hacc
  | some notes =>
    rw [halo] at h
    obtain ⟨m1, _, h⟩ := except_bind_ok h
    obtain ⟨m2, _, h⟩ := except_bind_ok h
    obtain ⟨m3, _, h⟩ := except_bind_ok h
    simp only [pure, Except.pure, Except.ok.injEq] at h
    subst h
    intro p hp
    rcases List.mem_append.mp hp with hp | hp
    · exact hacc p hp
    · simp at hp
      subst hp
      exact hsk

theorem backfillField_keys {P : String → Prop} {input acc : List (String × JVal)}
    {f k : String} (hacc : ∀ p ∈ acc, P p.1) (hfi : P "filing_information") :
    ∀ p ∈ backfillField input acc f k, P p.1 := by
  unfold backfillField
  by_cases hc : (!hasKey (jEntries ((alookup acc "filing_information").getD (.jobj []))) f
      && hasKey input k) = true
  · rw [if_pos hc]
    intro p hp
    rcases mem_upsert hp with h' | h'
    · rw [h']; exact hfi
    · exact hacc p h'
  · rw [if_neg hc]
    exact hacc

def djangoTopKey (s : String) : Prop :=
  s = "filing_information" ∨ s = "directors_statement" ∨ s = "audit_report" ∨
  s = "statement_of_financial_position" ∨ s = "income_statement" ∨ s = "notes"

theorem mapPydanticToDjangoFields_keys {input y : List (String × JVal)}
    (h : mapPydanticToDjangoFields input = .ok y) :
    ∀ p ∈ y, djangoTopKey p.1 := by
  unfold mapPydanticToDjangoFields at h
  obtain ⟨a1, h1, h⟩ := except_bind_ok h
  obtain ⟨a2, h2, h⟩ := except_bind_ok h
  obtain ⟨a3, h3, h⟩ := except_bind_ok h
  obtain ⟨a4, h4, h⟩ := except_bind_ok h
  obtain ⟨a5, h5, h⟩ := except_bind_ok h
  obtain ⟨a6, h6, h⟩ := except_bind_ok h
  simp only [pure, Except.pure, Except.ok.injEq] at h
  subst h
  have k1 := mapFlatSection_keys (P := djangoTopKey) h1
    (fun p hp => absurd hp (List.not_mem_nil p)) (by unfold djangoTopKey; simp)
  have k2 := mapFlatSection_keys (P := djangoTopKey) h2 k1 (by unfold djangoTopKey; simp)
  have k3 := mapFlatSection_keys (P := djangoTopKey) h3 k2 (by unfold djangoTopKey; simp)
  have k4 := mapFinancialPositionSection_keys (P := djangoTopKey) h4 k3 (by unfold djangoTopKey; simp)
  have k5 := mapFlatSection_keys (P := djangoTopKey) h5 k4 (by unfold djangoTopKey; simp)
  have k6 := mapNotesSection_keys (P := djangoTopKey) h6 k5 (by unfold djangoTopKey; simp)
  have k7 := @backfillField_keys djangoTopKey input _ "company_name"
    "NameOfCompany" k6 (by unfold djangoTopKey; simp)
  exact @backfillField_keys djangoTopKey input _ "unique_entity_number"
    "UniqueEntityNumber" k7 (by unfold djangoTopKey; simp)

theorem mapPydanticToDjangoFields_empty {input : List (String × JVal)}
    (h1 : hasKey input "FilingInformation" = false)
    (h2 : hasKey input "DirectorsStatement" = false)
    (h3 : hasKey input "AuditReport" = false)
    (h4 : hasKey input "StatementOfFinancialPosition" = false)
    (h5 : hasKey input "IncomeStatement" = false)
    (h6 : hasKey input "Notes" = false)
    (h7 : hasKey input "NameOfCompany" = false)
    (h8 : hasKey input "UniqueEntityNumber" = false) :
    mapPydanticToDjangoFields input = .ok [] := by
  have a1 := hasKey_false_alookup h1
  have a2 := hasKey_false_alookup h2
  have a3 := hasKey_false_alookup h3
  have a4 := hasKey_false_alookup h4
  have a5 := hasKey_false_alookup h5
  have a6 := hasKey_false_alookup h6
  simp [mapPydanticToDjangoFields, mapFlatSection, mapFinancialPositionSection, mapNotesSection,
    backfillField, a1, a2, a3, a4, a5, a6, h7, h8, Bind.bind, Except.bind, pure, Except.pure]

theorem hasKey_false_of_keys {l : List (String × JVal)} {k : String}
    (h : ∀ p ∈ l, p.1 ≠ k) : hasKey l k = false := by
  unfold hasKey
  cases halo : alookup l k with
  | none => rfl
  | some v => exact absurd rfl (h (k, v) (alookup_mem halo))

/-- C7 (amended): the translator is not literally idempotent-to-empty on every
input — it can raise on malformed sections — but whenever a first application
succeeds, applying `map_pydantic_to_django_fields` to its output yields the
empty dict: the output carries only storage-named (snake_case) top-level keys
and the translator copies only recognized canonical (PascalCase) keys. -/
theorem translator_second_application_empty {x y : List (String × JVal)}
    (h : mapPydanticToDjangoFields x = .ok y) :
    mapPydanticToDjangoFields y = .ok [] := by
  refine mapPydanticToDjangoFields_empty ?_ ?_ ?_ ?_ ?_ ?_ ?_ ?_ <;>
    · apply hasKey_false_of_keys
      intro p hp heq
      have hd := mapPydanticToDjangoFields_keys h p hp
      unfold djangoTopKey at hd
      rw [heq] at hd
      revert hd
      decide

/-- C7 counterexample: the claim as stated quantifies over every input dict,
but on a document whose `FilingInformation` value is not a dict the first
application raises a `TypeError` (Python `in` on an int), so the double
application is an exception rather than the empty dict. -/
theorem translator_twice_counterexample :
    ¬ ((mapPydanticToDjangoFields [("FilingInformation", JVal.jnum 5)]).bind
        mapPydanticToDjangoFields = .ok []) := by
  intro h
  rw [show (mapPydanticToDjangoFields [("FilingInformation", JVal.jnum 5)]).bind
      mapPydanticToDjangoFields = .error "argument of type is not iterable" from rfl] at h
  exact Except.noConfusion h

theorem translator_second_application_empty_witness :
    mapPydanticToDjangoFields [("IncomeStatement", JVal.jobj [("Revenue", JVal.jnum 1)])] =
      .ok [("income_statement", JVal.jobj [("revenue", JVal.jnum 1)])] ∧
    mapPydanticToDjangoFields [("income_statement", JVal.jobj [("revenue", JVal.jnum 1)])] =
      .ok [] :=
  ⟨rfl, translator_second_application_empty
    (x := [("IncomeStatement", JVal.jobj [("Revenue", JVal.jnum 1)])]) rfl⟩

/-- C6: for every dependency table, shared cache, element name, statement type
and pair of values, tagging the same element twice in sequence returns the same
`tags` entry in both results, while each result's `value` entry is the value
passed in that call — the cache stores tags but never values. -/
theorem tag_cache_stores_tags_not_values (deps : TagDeps) (cache : TagCache)
    (name : String) (v1 v2 : TVal) (st : String) :
    alookup (applyTagsToElement deps cache name v1 st).1 "tags" =
      alookup (applyTagsToElement deps
        (applyTagsToElement deps cache name v1 st).2 name v2 st).1 "tags" ∧
    alookup (applyTagsToElement deps cache name v1 st).1 "value" = some v1 ∧
    alookup (applyTagsToElement deps
      (applyTagsToElement deps cache name v1 st).2 name v2 st).1 "value" = some v2 := by
  cases halo : alookup cache (name ++ ":" ++ st) with
  | some entry =>
    simp only [applyTagsToElement, halo]
    refine ⟨?_, alookup_upsert_self _ _ _, alookup_upsert_self _ _ _⟩
    rw [alookup_upsert_ne _ _ _ _ (by decide), alookup_upsert_ne _ _ _ _ (by decide)]
  | none =>
    rcases hfm : findTagsWithMessages deps name with ⟨tags, msgs⟩
    simp only [applyTagsToElement, halo, hfm, alookup_upsert_self]
    refine ⟨?_, rfl, trivial⟩
    rw [alookup_upsert_ne _ _ _ _ (by decide), alookup_eraseKey_ne _ _ _ (by decide)]

theorem vm_bind_run_ok {α β : Type} {x : VM α} {f : α → VM β} {errs errs' : ErrMap}
    {a : α} (h : x errs = (.ok a, errs')) : (x >>= f) errs = f a errs' := by
  show (match x errs with
    | (.ok a, es) => f a es
    | (.error e, es) => (.error e, es)) = f a errs'
  rw [h]

theorem vm_bind_run_error {α β : Type} {x : VM α} {f : α → VM β} {errs errs' : ErrMap}
    {e : String} (h : x errs = (.error e, errs')) : (x >>= f) errs = (.error e, errs') := by
  show (match x errs with
    | (.ok a, es) => f a es
    | (.error er, es) => (.error er, es)) = (.error e, errs')
  rw [h]

theorem validate_of_body_error {data : List (String × JVal)} {e : String} {errs : ErrMap}
    (h : validateBody data [] = (.error e, errs)) :
    validate data = (false, addError errs "general" ("Validation error: " ++ e)) := by
  unfold validate
  rw [h]
  show ((addError errs "general" ("Validation error: " ++ e)).isEmpty,
        addError errs "general" ("Validation error: " ++ e)) = _
  cases hadd : addError errs "general" ("Validation error: " ++ e) with
  | nil => exact absurd hadd (addError_ne_nil _ _ _)
  | cons hd tl => rfl

theorem validate_of_body_ok {data : List (String × JVal)} {a : Unit} {errs : ErrMap}
    (h : validateBody data [] = (.ok a, errs)) : validate data = (errs.isEmpty, errs) := by
  unfold validate
  rw [h]

/-- C3: the validator is a total function of its input: an exception escaping
any check is caught and recorded as a `general`-section message prefixed
`Validation error: `, and the returned `is_valid` is true exactly when the
returned per-section error map is empty. -/
theorem validate_is_valid_iff_and_catches (data : List (String × JVal)) :
    ((validate data).1 = true ↔ (validate data).2 = []) ∧
    (∀ e errs, validateBody data [] = (.error e, errs) →
      (validate data).2 = addError errs "general" ("Validation error: " ++ e)) := by
  constructor
  · rcases hb : validateBody data [] with ⟨r, errs⟩
    cases r with
    | ok a =>
      rw [validate_of_body_ok hb]
      simp [List.isEmpty_iff]
    | error e =>
      rw [validate_of_body_error hb]
      constructor
      · intro hf
        simp at hf
      · intro hnil
        exact absurd hnil (addError_ne_nil _ _ _)
  · intro e errs hb
    rw [validate_of_body_error hb]

theorem validate_is_valid_iff_and_catches_witness :
    ((validate [("Notes", JVal.jobj [])]).1 = true ↔
      (validate [("Notes", JVal.jobj [])]).2 = []) ∧
    (validate [("Notes", JVal.jobj [])]).2 =
      addError [("structure",
          ["Missing required section(s): FilingInformation, StatementOfFinancialPosition, IncomeStatement"])]
        "general" ("Validation error: " ++ "name 'financial_position' is not defined") :=
  ⟨(validate_is_valid_iff_and_catches [("Notes", JVal.jobj [])]).1,
   (validate_is_valid_iff_and_catches [("Notes", JVal.jobj [])]).2
     "name 'financial_position' is not defined"
     [("structure",
       ["Missing required section(s): FilingInformation, StatementOfFinancialPosition, IncomeStatement"])]
     rfl⟩

/-- C9: a document with a Notes section but no financial-position section
under either naming variant makes the validator report `is_valid = false` with
an entry under the `general` section: the notes check's payables null-guard
reads the local `financial_position`, which is only bound when the
financial-position section exists, and the resulting `NameError` is converted
into a `general` validation error. -/
theorem notes_without_sfp_general_error (data : List (String × JVal))
    (hn : (hasKey data "Notes" || hasKey data "notes") = true)
    (h1 : hasKey data "StatementOfFinancialPosition" = false)
    (h2 : hasKey data "statement_of_financial_position" = false) :
    (validate data).1 = false ∧ (alookup (validate data).2 "general").isSome := by
  have hbody : ∃ e errs, validateBody data [] = (.error e, errs) := by
    rcases hpre : validatePreNotes data [] with ⟨r, errs0⟩
    cases r with
    | error e =>
      refine ⟨e, errs0, ?_⟩
      unfold validateBody
      exact vm_bind_run_error hpre
    | ok a =>
      obtain ⟨k, hk⟩ : ∃ k, firstKeyIn ["Notes", "notes"] (.jobj data) = .ok (some k) := by
        cases hN : hasKey data "Notes" with
        | true =>
          exact ⟨"Notes", by
            simp [firstKeyIn, pyHasKeyJ, hN, Bind.bind, Except.bind, pure, Except.pure]⟩
        | false =>
          have hn2 : hasKey data "notes" = true := by
            rw [hN] at hn
            simpa using hn
          exact ⟨"notes", by
            simp [firstKeyIn, pyHasKeyJ, hN, hn2, Bind.bind, Except.bind, pure, Except.pure]⟩
      have hsfp : firstKeyIn ["StatementOfFinancialPosition",
          "statement_of_financial_position"] (.jobj data) = .ok none := by
        simp [firstKeyIn, pyHasKeyJ, h1, h2, Bind.bind, Except.bind, pure, Except.pure]
      have hvn : validateNotes data errs0 =
          (.error "name 'financial_position' is not defined", errs0) := by
        simp only [validateNotes, Bind.bind, instMonadVM, vmLift, pyGetD, hk, hsfp]
      refine ⟨"name 'financial_position' is not defined", errs0, ?_⟩
      unfold validateBody
      rw [vm_bind_run_ok hpre]
      rw [hn]
      exact vm_bind_run_error hvn
  obtain ⟨e, errs, hb⟩ := hbody
  rw [validate_of_body_error hb]
  exact ⟨rfl, alookup_addError_self _ _ _⟩

theorem notes_without_sfp_general_error_witness :
    (validate [("notes", JVal.jobj [("x", JVal.jnum 1)])]).1 = false ∧
      (alookup (validate [("notes", JVal.jobj [("x", JVal.jnum 1)])]).2 "general").isSome :=
  notes_without_sfp_general_error [("notes", JVal.jobj [("x", JVal.jnum 1)])]
    (by decide) (by decide) (by decide)

/-- C2 (amended): the naming tolerance is limited to section presence: the
required-section check of `validate` treats the canonical PascalCase and the
storage snake_case variant of each top-level section key alike, so two
documents agreeing on the presence of each section under either variant get
the same required-section result; but the per-section readers are not all
naming-insensitive (see the counterexample), so full `validate` is not
invariant under renaming. -/
theorem required_sections_either_naming (data data' : List (String × JVal)) (errs : ErrMap)
    (hfi : (hasKey data "FilingInformation" || hasKey data "filing_information") =
           (hasKey data' "FilingInformation" || hasKey data' "filing_information"))
    (hsfp : (hasKey data "StatementOfFinancialPosition" ||
             hasKey data "statement_of_financial_position") =
            (hasKey data' "StatementOfFinancialPosition" ||
             hasKey data' "statement_of_financial_position"))
    (his : (hasKey data "IncomeStatement" || hasKey data "income_statement") =
           (hasKey data' "IncomeStatement" || hasKey data' "income_statement")) :
    validateRequiredSections data errs = validateRequiredSections data' errs := by
  unfold validateRequiredSections
  simp only [List.filter_cons, List.filter_nil, List.any_cons, List.any_nil, Bool.or_false,
    String.reduceBEq, beq_self_eq_true, if_true, Bool.false_eq_true, if_false]
  rw [hfi, hsfp, his]

theorem required_sections_either_naming_witness :
    validateRequiredSections [("FilingInformation", JVal.jobj [])] [] =
      validateRequiredSections [("filing_information", JVal.jobj [])] [] :=
  required_sections_either_naming [("FilingInformation", JVal.jobj [])]
    [("filing_information", JVal.jobj [])] [] (by decide) (by decide) (by decide)

/-- C2 counterexample: renaming the `FilingInformation` section key to its
storage variant `filing_information` changes the validator's output — the
filing-information checker reads the section body only under the PascalCase
key, so the renamed document loses credit for its `company_name` field. -/
theorem validate_not_naming_invariant :
    validate [("FilingInformation", JVal.jobj [("company_name", JVal.jstr "Acme")])] ≠
      validate [("filing_information", JVal.jobj [("company_name", JVal.jstr "Acme")])] := by
  decide

/-! ## The financial-position balance checks (claim C1) -/

theorem pyStrEq_eq_decide (a b : String) : pyStrEq a b = decide (a = b) := by
  cases hpe : pyStrEq a b with
  | true => exact (decide_eq_true ((pyStrEq_iff a b).mp hpe)).symm
  | false =>
    cases hd : decide (a = b) with
    | false => rfl
    | true => exact absurd ((pyStrEq_iff a b).mpr (of_decide_eq_true hd)) (by simp [hpe])

theorem tol_table (r : String) :
    (if pyStrEq r "Thousands" then (1 : ℚ)
     else if pyStrEq r "Millions" then (1/10) * 1000
     else if pyStrEq r "Billions" then (1/10) * 1000000 else 1/10) =
    (if r = "Thousands" then 1 else if r = "Millions" then 100
     else if r = "Billions" then 100000 else 1/10) := by
  rw [pyStrEq_eq_decide, pyStrEq_eq_decide, pyStrEq_eq_decide]
  simp only [decide_eq_true_eq]
  split_ifs <;> norm_num

theorem fp_balance_gen (a b c l e tol : ℚ) (r : String)
    (htol : (if pyStrEq r "Thousands" then (1 : ℚ)
             else if pyStrEq r "Millions" then (1/10) * 1000
             else if pyStrEq r "Billions" then (1/10) * 1000000 else 1/10) = tol) :
    validateFinancialPosition (famDoc a b c l e r) [] =
      (.ok (),
        match (if |a + b - c| > tol then
                 ["Total assets (" ++ ratStr c ++ ") does not equal the sum of current assets ("
                  ++ ratStr a ++ ") and non-current assets (" ++ ratStr b ++ ")"] else []) ++
              (if |l + e - c| > tol then
                 ["Assets (" ++ ratStr c ++ ") must equal Liabilities (" ++ ratStr l
                  ++ ") plus Equity (" ++ ratStr e ++ ")"] else []) with
        | [] => ([] : ErrMap)
        | msgs => [("StatementOfFinancialPosition", msgs)]) := by
  have hred : validateFinancialPosition (famDoc a b c l e r) [] =
      ((if |a + b - c| > (if pyStrEq r "Thousands" then (1 : ℚ)
          else if pyStrEq r "Millions" then (1/10) * 1000
          else if pyStrEq r "Billions" then (1/10) * 1000000 else 1/10) then
          vmErr "StatementOfFinancialPosition"
            ("Total assets (" ++ ratStr c ++ ") does not equal the sum of current assets ("
             ++ ratStr a ++ ") and non-current assets (" ++ ratStr b ++ ")")
        else pure ()) >>= fun _ =>
        (if |l + e - c| > (if pyStrEq r "Thousands" then (1 : ℚ)
            else if pyStrEq r "Millions" then (1/10) * 1000
            else if pyStrEq r "Billions" then (1/10) * 1000000 else 1/10) then
          vmErr "StatementOfFinancialPosition"
            ("Assets (" ++ ratStr c ++ ") must equal Liabilities (" ++ ratStr l
             ++ ") plus Equity (" ++ ratStr e ++ ")")
        else pure ())) [] := rfl
  rw [hred, htol]
  by_cases h1 : |a + b - c| > tol <;> by_cases h2 : |l + e - c| > tol
  · simp only [if_pos h1, if_pos h2]; exact rfl
  · simp only [if_pos h1, if_neg h2]; exact rfl
  · simp only [if_neg h1, if_pos h2]; exact rfl
  · simp only [if_neg h1, if_neg h2]; exact rfl

/-- C1: the financial-position checker validates the two balance identities
within the tolerance derived from the declared rounding level (`Thousands` →
1, `Millions` → 100, `Billions` → 100000, otherwise 0.1), adding a
`StatementOfFinancialPosition` error with the two operands in its message
exactly when an identity misses by more than the tolerance; on the spec's
scenario (totals 500/500, `Assets` 1000, `Liabilities` 500, `Equity` 500)
`validate` returns `is_valid = true` with no errors, and with `Assets` 900 it
reports the mismatch message naming both operands. -/
theorem balance_checks_and_tolerance (a b c l e : ℚ) (r : String) :
    (validateFinancialPosition (famDoc a b c l e r) [] =
      (.ok (),
        match (if |a + b - c| > (if r = "Thousands" then (1 : ℚ)
                   else if r = "Millions" then 100
                   else if r = "Billions" then 100000 else 1/10) then
                 ["Total assets (" ++ ratStr c ++ ") does not equal the sum of current assets ("
                  ++ ratStr a ++ ") and non-current assets (" ++ ratStr b ++ ")"] else []) ++
              (if |l + e - c| > (if r = "Thousands" then (1 : ℚ)
                   else if r = "Millions" then 100
                   else if r = "Billions" then 100000 else 1/10) then
                 ["Assets (" ++ ratStr c ++ ") must equal Liabilities (" ++ ratStr l
                  ++ ") plus Equity (" ++ ratStr e ++ ")"] else []) with
        | [] => ([] : ErrMap)
        | msgs => [("StatementOfFinancialPosition", msgs)])) ∧
    validate (exampleDoc 1000) = (true, []) ∧
    ∃ msgs, alookup (validate (exampleDoc 900)).2 "StatementOfFinancialPosition" = some msgs ∧
      "Total assets (900) does not equal the sum of current assets (500) and non-current assets (500)" ∈ msgs :=
  ⟨fp_balance_gen a b c l e _ r (tol_table r), by decide!,
   ⟨["Total assets (900) does not equal the sum of current assets (500) and non-current assets (500)",
     "Assets (900) must equal Liabilities (500) plus Equity (500)",
     "Total assets (900) does not equal the sum of current assets (500) and non-current assets (500)",
     "Assets (900) must equal Liabilities (500) plus Equity (500)"],
    by decide!, by decide!⟩⟩

/-! ## Booleans as numeric leaves (claim C10) -/

theorem pyIsNum_boolToNumV (v : JVal) : pyIsNum (boolToNumV v) = pyIsNum v := by
  cases v <;> simp [boolToNumV, pyIsNum]

theorem pyFloatE_boolToNumV (v : JVal) : pyFloatE (boolToNumV v) = pyFloatE v := by
  cases v with
  | jbool b =>
    have h1 : ((1 : ℚ).den == 1 && decide (2 ^ 1024 ≤ (1 : ℚ).num.natAbs)) = false := by
      decide!
    have h0 : ((0 : ℚ).den == 1 && decide (2 ^ 1024 ≤ (0 : ℚ).num.natAbs)) = false := by
      decide!
    cases b <;> simp [boolToNumV, pyFloatE, h1, h0]
  | jnull => simp [boolToNumV]
  | jnum q => simp [boolToNumV]
  | jstr s => simp [boolToNumV]
  | jarr xs => simp [boolToNumV, pyFloatE]
  | jobj es => simp [boolToNumV, pyFloatE]

theorem exceptBind_congr {α β : Type} {x : Except String α} {f g : α → Except String β}
    (h : ∀ a, f a = g a) : (x >>= f) = (x >>= g) := by
  cases x with
  | ok a => simp [Bind.bind, Except.bind, h a]
  | error e => simp [Bind.bind, Except.bind]

theorem boolToNumEntries_alookup (es : List (String × JVal)) (k : String) :
    alookup (boolToNumEntries es) k = (alookup es k).map boolToNumV := by
  induction es with
  | nil => simp [boolToNumEntries, alookup]
  | cons hd tl ih =>
    obtain ⟨k0, v0⟩ := hd
    by_cases h : k0 = k <;> simp [boolToNumEntries, alookup, h, ih]

theorem boolToNumEntries_length (es : List (String × JVal)) :
    (boolToNumEntries es).length = es.length := by
  induction es with
  | nil => simp [boolToNumEntries]
  | cons hd tl ih =>
    obtain ⟨k0, v0⟩ := hd
    simp [boolToNumEntries, ih]

theorem singleEntryValue_boolToNum (es : List (String × JVal)) :
    singleEntryValue (boolToNumEntries es) = boolToNumV (singleEntryValue es) := by
  cases es with
  | nil => simp [boolToNumEntries, singleEntryValue, boolToNumV]
  | cons hd tl =>
    obtain ⟨k0, v0⟩ := hd
    simp [boolToNumEntries, singleEntryValue]

theorem singleNumericEntry_boolToNum (es : List (String × JVal)) :
    singleNumericEntry (boolToNumEntries es) = singleNumericEntry es := by
  simp [singleNumericEntry, boolToNumEntries_length, singleEntryValue_boolToNum,
    pyIsNum_boolToNumV]

theorem floatEntries_boolToNum (inner : List (String × JVal)) :
    ∀ d, floatEntries (boolToNumEntries inner) d = floatEntries inner d := by
  induction inner with
  | nil => intro d; simp [boolToNumEntries]
  | cons hd tl ih =>
    intro d
    obtain ⟨k0, v0⟩ := hd
    simp only [boolToNumEntries, floatEntries, pyIsNum_boolToNumV, pyFloatE_boolToNumV]
    by_cases hn : pyIsNum v0 = true
    · simp only [hn, if_true]
      refine exceptBind_congr fun f => ?_
      exact ih (upsert d k0 f)
    · simp [hn, ih]

theorem sfpStoreE_boolToNum (pre : String) (sub : List (String × JVal)) :
    ∀ fp, sfpStoreE pre (boolToNumEntries sub) fp = sfpStoreE pre sub fp := by
  induction sub with
  | nil => intro fp; simp [boolToNumEntries]
  | cons hd tl ih =>
    intro fp
    obtain ⟨k0, v0⟩ := hd
    simp only [boolToNumEntries, sfpStoreE, pyIsNum_boolToNumV, pyFloatE_boolToNumV]
    by_cases hn : pyIsNum v0 = true
    · simp only [hn, if_true]
      refine exceptBind_congr fun f => ?_
      exact ih (upsert fp (pre ++ k0) f)
    · simp [hn, ih]

theorem sfpSubsE_boolToNum (inner : List (String × JVal)) (secs : List String) :
    ∀ fp, sfpSubsE (boolToNumEntries inner) secs fp = sfpSubsE inner secs fp := by
  induction secs with
  | nil => intro fp; simp [sfpSubsE]
  | cons sec rest ih =>
    intro fp
    simp only [sfpSubsE, boolToNumEntries_alookup]
    cases h2 : alookup inner sec with
    | none => exact ih fp
    | some w =>
      cases w with
      | jobj sub =>
        simp only [Option.map_some', boolToNumV, sfpStoreE_boolToNum]
        exact exceptBind_congr fun fp2 => ih fp2
      | jnull => simp only [Option.map_some', boolToNumV]; exact ih fp
      | jbool b => simp only [Option.map_some', boolToNumV]; exact ih fp
      | jnum q => simp only [Option.map_some', boolToNumV]; exact ih fp
      | jstr s => simp only [Option.map_some', boolToNumV]; exact ih fp
      | jarr xs => simp only [Option.map_some', boolToNumV]; exact ih fp

theorem incomeSpecial_boolToNum (es : List (String × JVal)) (acc : B3) :
    incomeSpecial (boolToNumEntries es) acc = incomeSpecial es acc := by
  unfold incomeSpecial
  rw [boolToNumEntries_alookup]
  cases halo : alookup es "incomeStatement" with
  | none => rfl
  | some v =>
    cases v with
    | jobj inner => simp only [Option.map_some', boolToNumV, floatEntries_boolToNum]
    | jnull => simp [boolToNumV]
    | jbool b => simp [boolToNumV]
    | jnum q => simp [boolToNumV]
    | jstr s => simp [boolToNumV]
    | jarr xs => simp [boolToNumV]

theorem sfpSpecial_boolToNum (es : List (String × JVal)) (acc : B3) :
    sfpSpecial (boolToNumEntries es) acc = sfpSpecial es acc := by
  unfold sfpSpecial
  rw [boolToNumEntries_alookup]
  cases halo : alookup es "statementOfFinancialPosition" with
  | none => rfl
  | some v =>
    cases v with
    | jobj inner =>
      simp only [Option.map_some', boolToNumV, sfpStoreE_boolToNum]
      refine exceptBind_congr fun fp1 => ?_
      rw [sfpSubsE_boolToNum]
    | jnull => simp [boolToNumV]
    | jbool b => simp [boolToNumV]
    | jnum q => simp [boolToNumV]
    | jstr s => simp [boolToNumV]
    | jarr xs => simp [boolToNumV]

set_option maxHeartbeats 2000000 in
theorem extract_boolToNum_all : ∀ n : ℕ,
    (∀ (k : String) (v : JVal) (path : String) (acc : B3), sizeOf v ≤ n →
      extractItem k (boolToNumV v) path acc = extractItem k v path acc) ∧
    (∀ (i : ℕ) (xs : List JVal) (path : String) (acc : B3), sizeOf xs ≤ n →
      extractList i (boolToNumList xs) path acc = extractList i xs path acc) ∧
    (∀ (es : List (String × JVal)) (path : String) (acc : B3), sizeOf es ≤ n →
      extractLoop (boolToNumEntries es) path acc = extractLoop es path acc) ∧
    (∀ (es : List (String × JVal)) (path : String), sizeOf es ≤ n →
      extractDict (boolToNumEntries es) path = extractDict es path) := by
  intro n
  induction n using Nat.strong_induction_on with
  | _ n IH =>
    have hitem : ∀ (k : String) (v : JVal) (path : String) (acc : B3), sizeOf v ≤ n →
        extractItem k (boolToNumV v) path acc = extractItem k v path acc := by
      intro k v path acc hv
      cases v with
      | jnull => simp [boolToNumV]
      | jnum q => simp [boolToNumV]
      | jstr s => simp [boolToNumV]
      | jbool b =>
        have hb := pyFloatE_boolToNumV (.jbool b)
        simp only [boolToNumV] at hb ⊢
        simp only [extractItem, pyIsNum, hb]
      | jobj es =>
        have hlt : sizeOf es < n := by
          have hspec : sizeOf (JVal.jobj es) = 1 + sizeOf es := by simp
          omega
        have hD := (IH (sizeOf es) hlt).2.2.2
        simp only [boolToNumV]
        simp only [extractItem, pyIsNum, singleNumericEntry_boolToNum,
          singleEntryValue_boolToNum, pyFloatE_boolToNumV,
          hD es _ (le_refl _), Bool.false_eq_true, if_false]
      | jarr xs =>
        have hlt : sizeOf xs < n := by
          have hspec : sizeOf (JVal.jarr xs) = 1 + sizeOf xs := by simp
          omega
        have hL := (IH (sizeOf xs) hlt).2.1
        simp only [boolToNumV]
        simp only [extractItem, pyIsNum, hL 0 xs _ acc (le_refl _),
          Bool.false_eq_true, if_false]
    have hlitem : ∀ (i : ℕ) (item : JVal) (path : String) (acc : B3), sizeOf item ≤ n →
        extractListItem i (boolToNumV item) path acc = extractListItem i item path acc := by
      intro i item path acc hit
      cases item with
      | jnull => simp [boolToNumV]
      | jnum q => simp [boolToNumV]
      | jstr s => simp [boolToNumV]
      | jbool b =>
        have hb := pyFloatE_boolToNumV (.jbool b)
        simp only [boolToNumV] at hb ⊢
        simp only [extractListItem, pyIsNum, hb]
      | jobj es =>
        have hes : sizeOf es < n := by
          have hspec : sizeOf (JVal.jobj es) = 1 + sizeOf es := by simp
          omega
        have hD := (IH (sizeOf es) hes).2.2.2
        simp only [boolToNumV]
        simp only [extractListItem]
        rw [hD es _ (le_refl _)]
      | jarr ys =>
        simp only [boolToNumV]
        simp [extractListItem, pyIsNum]
    have hlist : ∀ (i : ℕ) (xs : List JVal) (path : String) (acc : B3), sizeOf xs ≤ n →
        extractList i (boolToNumList xs) path acc = extractList i xs path acc := by
      intro i xs path acc hx
      cases xs with
      | nil => simp [boolToNumList]
      | cons item rest =>
        have hsz : sizeOf (item :: rest) = 1 + sizeOf item + sizeOf rest := by simp
        have hitsz : sizeOf item ≤ n := by omega
        have hrest : sizeOf rest < n := by
          have hp : 0 < sizeOf item := by cases item <;> simp_arith
          omega
        have hR := (IH (sizeOf rest) hrest).2.1
        simp only [boolToNumList, extractList]
        rw [hlitem i item _ acc hitsz]
        exact exceptBind_congr fun a => hR (i + 1) rest _ a (le_refl _)
    have hloop : ∀ (es : List (String × JVal)) (path : String) (acc : B3), sizeOf es ≤ n →
        extractLoop (boolToNumEntries es) path acc = extractLoop es path acc := by
      intro es path acc h
      cases es with
      | nil => simp [boolToNumEntries]
      | cons hd rest =>
        obtain ⟨k0, v0⟩ := hd
        have hsz : sizeOf ((k0, v0) :: rest) = 1 + sizeOf (k0, v0) + sizeOf rest := by simp
        have hv0 : sizeOf v0 ≤ n := by
          have hps : sizeOf (k0, v0) = 1 + sizeOf k0 + sizeOf v0 := by simp
          omega
        have hrest : sizeOf rest < n := by
          have hp : 0 < sizeOf (k0, v0) := by simp_arith
          omega
        have hR := (IH (sizeOf rest) hrest).2.2.1
        simp only [boolToNumEntries, extractLoop]
        rw [hitem k0 v0 path acc hv0]
        exact exceptBind_congr fun a => hR rest path a (le_refl _)
    have hdict : ∀ (es : List (String × JVal)) (path : String), sizeOf es ≤ n →
        extractDict (boolToNumEntries es) path = extractDict es path := by
      intro es path h
      simp only [extractDict]
      rw [incomeSpecial_boolToNum]
      refine exceptBind_congr fun acc0 => ?_
      rw [sfpSpecial_boolToNum]
      refine exceptBind_congr fun acc1 => ?_
      rw [hloop es path acc1 h]
    exact ⟨hitem, hlist, hloop, hdict⟩

theorem extract_boolToNum (v : JVal) (path : String) :
    extract (boolToNumV v) path = extract v path := by
  cases v with
  | jobj es =>
    show extractDict (jEntries (boolToNumV (.jobj es))) path = extractDict (jEntries (.jobj es)) path
    rw [show boolToNumV (.jobj es) = .jobj (boolToNumEntries es) from by simp [boolToNumV]]
    exact (extract_boolToNum_all (sizeOf es)).2.2.2 es path (le_refl _)
  | jnull => simp [boolToNumV]
  | jbool b => simp [boolToNumV, extract, jEntries]
  | jnum q => simp [boolToNumV]
  | jstr s => simp [boolToNumV]
  | jarr xs => simp [boolToNumV, extract, jEntries]

/-- C10: the extractor treats boolean leaves as numeric leaves: replacing every
boolean in the input by the number Python `float` maps it to (`True ↦ 1.0`,
`False ↦ 0.0`) leaves the extraction result unchanged — a boolean is bucketed
exactly as that number — and the embedded `isinstance(v, (int, float))` test
accepts booleans with `float` giving 1 or 0. -/
theorem extractor_bools_as_numbers (v : JVal) (path : String) (b : Bool) :
    extract (boolToNumV v) path = extract v path ∧
    boolToNumV (.jbool b) = .jnum (if b then 1 else 0) ∧
    pyIsNum (.jbool b) = true ∧
    pyFloatE (.jbool b) = .ok (if b then 1 else 0) :=
  ⟨extract_boolToNum v path, by simp [boolToNumV], rfl, rfl⟩

/-! ## Exact keyword matches of the term matcher (claim C4) -/

set_option maxHeartbeats 10000000 in
theorem encAllLit_eq : encTable (filteredMappings (pyLower "all")) = encAllLit := by decide!

set_option maxHeartbeats 4000000 in
theorem c4Entry1 : c4CheckEntry ("Revenue", ["revenue", "turnover", "sales", "contract", "income from operations"]) = true := by decide!

set_option maxHeartbeats 4000000 in
theorem c4Entry2 : c4CheckEntry ("OtherIncome", ["other income", "other operating income", "other revenue", "dividend income", "interest income", "rental income"]) = true := by decide!

set_option maxHeartbeats 4000000 in
theorem c4Entry3 : c4CheckEntry ("EmployeeBenefitsExpense", ["employee", "staff", "personnel", "salaries", "wages", "cpf", "compensation", "bonuses"]) = true := by decide!

set_option maxHeartbeats 4000000 in
theorem c4Entry4 : c4CheckEntry ("DepreciationExpense", ["depreciation", "property, plant and equipment", "ppe", "fixed assets", "depreciate"]) = true := by decide!

set_option maxHeartbeats 4000000 in
theorem c4Entry5 : c4CheckEntry ("AmortisationExpense", ["amortisation", "amortization", "intangible assets", "goodwill", "amortize"]) = true := by decide!

set_option maxHeartbeats 4000000 in
theorem c4Entry6 : c4CheckEntry ("RepairsAndMaintenanceExpense", ["repairs", "maintenance", "upkeep", "repair expenses", "maintenance costs"]) = true := by decide!

set_option maxHeartbeats 4000000 in
theorem c4Entry7 : c4CheckEntry ("SalesAndMarketingExpense", ["sales", "marketing", "advertising", "promotion", "selling expenses", "distribution costs"]) = true := by decide!

set_option maxHeartbeats 4000000 in
theorem c4Entry8 : c4CheckEntry ("OtherExpensesByNature", ["other expenses", "general expenses", "administrative", "utilities", "office expenses", "rental expenses"]) = true := by decide!

set_option maxHeartbeats 4000000 in
theorem c4Entry9 : c4CheckEntry ("OtherGainsLosses", ["other gains", "other losses", "foreign exchange", "forex", "fair value", "disposal gains", "disposal losses"]) = true := by decide!

set_option maxHeartbeats 4000000 in
theorem c4Entry10 : c4CheckEntry ("FinanceCosts", ["finance costs", "interest expense", "borrowing costs", "loan interest", "financing costs"]) = true := by decide!

set_option maxHeartbeats 4000000 in
theorem c4Entry11 : c4CheckEntry ("ShareOfProfitLossOfAssociatesAndJointVenturesAccountedForUsingEquityMethod", ["associates", "joint ventures", "equity method", "share of profit", "share of loss"]) = true := by decide!

set_option maxHeartbeats 4000000 in
theorem c4Entry12 : c4CheckEntry ("ProfitLossBeforeTaxation", ["profit before tax", "earnings before tax", "profit before income tax", "pbt", "ebt"]) = true := by decide!

set_option maxHeartbeats 4000000 in
theorem c4Entry13 : c4CheckEntry ("TaxExpenseBenefitContinuingOperations", ["income tax", "tax expense", "taxation", "tax charge", "income tax expense"]) = true := by decide!

set_option maxHeartbeats 4000000 in
theorem c4Entry14 : c4CheckEntry ("ProfitLossFromDiscontinuedOperations", ["discontinued operations", "disposal group", "discontinued business"]) = true := by decide!

set_option maxHeartbeats 4000000 in
theorem c4Entry15 : c4CheckEntry ("ProfitLoss", ["profit for the year", "net profit", "profit for the period", "net income", "total comprehensive income"]) = true := by decide!

set_option maxHeartbeats 4000000 in
theorem c4Entry16 : c4CheckEntry ("ProfitLossAttributableToOwnersOfCompany", ["attributable to owners", "attributable to shareholders", "equity holders", "owners of the company"]) = true := by decide!

set_option maxHeartbeats 4000000 in
theorem c4Entry17 : c4CheckEntry ("ProfitLossAttributableToNoncontrollingInterests", ["non-controlling interests", "minority interest", "minority shareholders", "nci"]) = true := by decide!

set_option maxHeartbeats 4000000 in
theorem c4Entry18 : c4CheckEntry ("currentAssets.CashAndBankBalances", ["cash", "bank", "cash equivalents", "cash at bank", "cash on hand"]) = true := by decide!

set_option maxHeartbeats 4000000 in
theorem c4Entry19 : c4CheckEntry ("currentAssets.TradeAndOtherReceivablesCurrent", ["trade receivables", "accounts receivable", "trade debtors", "contract assets", "current receivables"]) = true := by decide!

set_option maxHeartbeats 4000000 in
theorem c4Entry20 : c4CheckEntry ("currentAssets.CurrentFinanceLeaseReceivables", ["lease receivables", "finance lease assets", "short-term lease receivables"]) = true := by decide!

set_option maxHeartbeats 4000000 in
theorem c4Entry21 : c4CheckEntry ("currentAssets.CurrentDerivativeFinancialAssets", ["derivatives", "forward contracts", "swap assets", "option assets", "current derivative assets"]) = true := by decide!

set_option maxHeartbeats 4000000 in
theorem c4Entry22 : c4CheckEntry ("currentAssets.CurrentFinancialAssetsMeasuredAtFairValueThroughProfitOrLoss", ["fvtpl", "fair value", "trading assets", "fair value instruments", "current financial assets at fair value"]) = true := by decide!

set_option maxHeartbeats 4000000 in
theorem c4Entry23 : c4CheckEntry ("currentAssets.Inventories", ["inventory", "stock", "goods for sale", "raw materials", "finished goods", "work in progress"]) = true := by decide!

set_option maxHeartbeats 4000000 in
theorem c4Entry24 : c4CheckEntry ("currentAssets.OtherCurrentNonfinancialAssets", ["prepayments", "advances", "deposits", "other current assets"]) = true := by decide!

set_option maxHeartbeats 4000000 in
theorem c4Entry25 : c4CheckEntry ("currentAssets.CurrentAssets", ["total current assets", "current assets", "short-term assets"]) = true := by decide!

set_option maxHeartbeats 4000000 in
theorem c4Entry26 : c4CheckEntry ("nonCurrentAssets.PropertyPlantAndEquipment", ["ppe", "fixed assets", "tangible assets", "property and equipment", "plant and equipment"]) = true := by decide!

set_option maxHeartbeats 4000000 in
theorem c4Entry27 : c4CheckEntry ("nonCurrentAssets.InvestmentProperties", ["investment property", "investment real estate", "rental properties", "property investments"]) = true := by decide!

set_option maxHeartbeats 4000000 in
theorem c4Entry28 : c4CheckEntry ("nonCurrentAssets.Goodwill", ["goodwill", "acquisition goodwill", "purchased goodwill"]) = true := by decide!

set_option maxHeartbeats 4000000 in
theorem c4Entry29 : c4CheckEntry ("nonCurrentAssets.IntangibleAssetsOtherThanGoodwill", ["intangible assets", "patents", "trademarks", "software", "licenses", "intellectual property"]) = true := by decide!

set_option maxHeartbeats 4000000 in
theorem c4Entry30 : c4CheckEntry ("nonCurrentAssets.InvestmentsInSubsidiariesAssociatesOrJointVentures", ["investments in subsidiaries", "investments in associates", "equity investments", "joint ventures"]) = true := by decide!

set_option maxHeartbeats 4000000 in
theorem c4Entry31 : c4CheckEntry ("nonCurrentAssets.DeferredTaxAssets", ["deferred tax assets", "future tax assets", "tax credits"]) = true := by decide!

set_option maxHeartbeats 4000000 in
theorem c4Entry32 : c4CheckEntry ("nonCurrentAssets.NoncurrentAssets", ["total non-current assets", "long-term assets", "fixed assets"]) = true := by decide!

set_option maxHeartbeats 4000000 in
theorem c4Entry33 : c4CheckEntry ("currentLiabilities.TradeAndOtherPayablesCurrent", ["trade payables", "accounts payable", "trade creditors", "accruals", "current payables"]) = true := by decide!

set_option maxHeartbeats 4000000 in
theorem c4Entry34 : c4CheckEntry ("currentLiabilities.CurrentLoansAndBorrowings", ["short-term borrowings", "bank overdrafts", "current portion of loans", "current loans"]) = true := by decide!

set_option maxHeartbeats 4000000 in
theorem c4Entry35 : c4CheckEntry ("currentLiabilities.CurrentFinanceLeaseLiabilities", ["current lease obligations", "short-term lease liabilities", "lease liabilities current"]) = true := by decide!

set_option maxHeartbeats 4000000 in
theorem c4Entry36 : c4CheckEntry ("currentLiabilities.CurrentIncomeTaxLiabilities", ["tax payable", "current tax", "income tax payable"]) = true := by decide!

set_option maxHeartbeats 4000000 in
theorem c4Entry37 : c4CheckEntry ("currentLiabilities.CurrentProvisions", ["short-term provisions", "current provisions", "warranty provisions"]) = true := by decide!

set_option maxHeartbeats 4000000 in
theorem c4Entry38 : c4CheckEntry ("currentLiabilities.CurrentLiabilities", ["total current liabilities", "short-term liabilities"]) = true := by decide!

set_option maxHeartbeats 4000000 in
theorem c4Entry39 : c4CheckEntry ("nonCurrentLiabilities.NoncurrentLoansAndBorrowings", ["long-term borrowings", "term loans", "bonds payable", "non-current loans"]) = true := by decide!

set_option maxHeartbeats 4000000 in
theorem c4Entry40 : c4CheckEntry ("nonCurrentLiabilities.NoncurrentFinanceLeaseLiabilities", ["long-term lease obligations", "long-term lease liabilities", "non-current lease liabilities"]) = true := by decide!

set_option maxHeartbeats 4000000 in
theorem c4Entry41 : c4CheckEntry ("nonCurrentLiabilities.DeferredTaxLiabilities", ["deferred tax liabilities", "future tax liabilities", "deferred taxation"]) = true := by decide!

set_option maxHeartbeats 4000000 in
theorem c4Entry42 : c4CheckEntry ("nonCurrentLiabilities.NoncurrentProvisions", ["long-term provisions", "decommissioning provisions", "restoration provisions"]) = true := by decide!

set_option maxHeartbeats 4000000 in
theorem c4Entry43 : c4CheckEntry ("nonCurrentLiabilities.NoncurrentLiabilities", ["total non-current liabilities", "long-term liabilities"]) = true := by decide!

set_option maxHeartbeats 4000000 in
theorem c4Entry44 : c4CheckEntry ("equity.ShareCapital", ["share capital", "issued capital", "paid-up capital", "ordinary shares", "common stock"]) = true := by decide!

set_option maxHeartbeats 4000000 in
theorem c4Entry45 : c4CheckEntry ("equity.TreasuryShares", ["treasury shares", "own shares", "repurchased shares", "treasury stock"]) = true := by decide!

set_option maxHeartbeats 4000000 in
theorem c4Entry46 : c4CheckEntry ("equity.AccumulatedProfitsLosses", ["retained earnings", "accumulated profits", "retained profits", "accumulated earnings"]) = true := by decide!

set_option maxHeartbeats 4000000 in
theorem c4Entry47 : c4CheckEntry ("equity.ReservesOtherThanAccumulatedProfitsLosses", ["reserves", "revaluation reserve", "translation reserve", "hedging reserve", "capital reserve"]) = true := by decide!

set_option maxHeartbeats 4000000 in
theorem c4Entry48 : c4CheckEntry ("equity.NoncontrollingInterests", ["minority interests", "nci", "minority shareholders' interest", "non-controlling interests"]) = true := by decide!

set_option maxHeartbeats 4000000 in
theorem c4Entry49 : c4CheckEntry ("equity.Equity", ["total equity", "shareholders' equity", "shareholders' funds", "net assets"]) = true := by decide!

set_option maxHeartbeats 4000000 in
theorem c4Entry50 : c4CheckEntry ("Assets", ["total assets", "assets"]) = true := by decide!

set_option maxHeartbeats 4000000 in
theorem c4Entry51 : c4CheckEntry ("Liabilities", ["total liabilities", "liabilities"]) = true := by decide!

theorem c4Check_true : c4Check = true := by
  simp only [c4Check, incomeTerms, positionTerms, List.cons_append, List.nil_append,
    List.all_cons, List.all_nil]
  rw [c4Entry1, c4Entry2, c4Entry3, c4Entry4, c4Entry5, c4Entry6, c4Entry7, c4Entry8, c4Entry9, c4Entry10, c4Entry11, c4Entry12, c4Entry13, c4Entry14, c4Entry15, c4Entry16, c4Entry17, c4Entry18, c4Entry19, c4Entry20, c4Entry21, c4Entry22, c4Entry23, c4Entry24, c4Entry25, c4Entry26, c4Entry27, c4Entry28, c4Entry29, c4Entry30, c4Entry31, c4Entry32, c4Entry33, c4Entry34, c4Entry35, c4Entry36, c4Entry37, c4Entry38, c4Entry39, c4Entry40, c4Entry41, c4Entry42, c4Entry43, c4Entry44, c4Entry45, c4Entry46, c4Entry47, c4Entry48, c4Entry49, c4Entry50, c4Entry51]
  rfl


/-- C4: every keyword that appears verbatim in a keyword list of the income or
position term table is matched (with the default `"all"` filter) with score at
least 5, and the returned field is one whose keyword list contains that
keyword in the table selected by the returned statement type. -/
theorem exact_keyword_matches (fk : String × List String) (kw : String)
    (hfk : fk ∈ incomeTerms ++ positionTerms) (hkw : kw ∈ fk.2) :
    5 ≤ (matchFinancialTerm kw "all").match_score ∧
    ∃ fk2 ∈ (if (matchFinancialTerm kw "all").statement_type = "income_statement"
             then incomeTerms else positionTerms),
      fk2.1 = (matchFinancialTerm kw "all").field ∧ kw ∈ fk2.2 := by
  have hm : matchFinancialTerm kw "all" = matchWithTable encAllLit kw := by
    unfold matchFinancialTerm
    rw [encAllLit_eq]
  have hc : ((incomeTerms ++ positionTerms).all c4CheckEntry) = true := c4Check_true
  have h2 : (fk.2.all fun kw =>
      let r := matchWithTable encAllLit kw
      decide (5 ≤ r.match_score) &&
        ((if r.statement_type == "income_statement" then incomeTerms else positionTerms).any
          fun fk2 => fk2.1 == r.field && fk2.2.contains kw)) = true :=
    List.all_eq_true.mp hc fk hfk
  have h3 := List.all_eq_true.mp h2 kw hkw
  simp only [decide_eq_true_eq, Bool.and_eq_true, List.any_eq_true, beq_iff_eq] at h3
  rw [hm]
  obtain ⟨h5, fk2, hfk2, hfield, hmem⟩ := h3
  exact ⟨h5, fk2, hfk2, hfield, List.elem_iff.mp hmem⟩

theorem exact_keyword_matches_witness :
    5 ≤ (matchFinancialTerm "revenue" "all").match_score ∧
    ∃ fk2 ∈ (if (matchFinancialTerm "revenue" "all").statement_type = "income_statement"
             then incomeTerms else positionTerms),
      fk2.1 = (matchFinancialTerm "revenue" "all").field ∧ "revenue" ∈ fk2.2 :=
  exact_keyword_matches
    ("Revenue", ["revenue", "turnover", "sales", "contract", "income from operations"])
    "revenue" (by decide) (by decide)

/-! ## The extractor and float overflow (claim C5) -/

